import Mathlib

/-!
The CM Power HAL (`libpower/power.c`): a shallow embedding

The C file talks to the kernel through `open`, `read`, `write` and `close` on
four sysfs paths and keeps two integers of module state (`boostpulse_fd`,
`boostpulse_warned`).  The embedding below makes the kernel an explicit value
(`Kernel`): the files with their behaviour, the descriptor table of the process
and a trace of every system call and log line, newest first.  Every C function
becomes a Lean function that takes and returns the kernel, and the automatic
arrays that the C code declares without initialising (`char governor[80]`) are
taken as an argument holding their indeterminate contents.

The mutex of the module is not modelled: all statements are about sequential
executions.
-/

namespace PowerHAL

/-! ## The kernel side -/

/-- Access mode passed to `open`. -/
inductive OFlag
  | O_RDONLY
  | O_WRONLY
deriving DecidableEq, Repr

/-- One sysfs file: what a read delivers and which calls succeed on it. -/
structure File where
  content : List Char
  rd_open : Bool
  rd_ok : Bool
  wr_open : Bool
  wr_ok : Bool
deriving DecidableEq, Repr

/-- One observable action: a system call with its result, or a log line. -/
inductive Event
  | ev_open (path : String) (flags : OFlag) (ret : Int)
  | ev_read (fd : Int) (path : Option String) (ret : Int)
  | ev_write (fd : Int) (path : Option String) (bytes : List Char) (ret : Int)
  | ev_close (fd : Int)
  | ev_log (prio : Char) (msg : String)
deriving DecidableEq, Repr

/-- The kernel as seen by the process: files by path, the descriptor table
(descriptor, path, mode) and the trace of actions, newest first. -/
structure Kernel where
  files : List (String × File)
  fds : List (Int × String × OFlag)
  trace : List Event
deriving DecidableEq, Repr

/-- Search for the lowest descriptor number not in `used`, starting at `n`. -/
def lowest_free (used : List Int) : Nat → Nat → Nat
  | 0, n => n
  | fuel + 1, n => if (n : Int) ∈ used then lowest_free used fuel (n + 1) else n

/-- The descriptor `open` hands out: the lowest one not in use. -/
def fresh_fd (k : Kernel) : Int :=
  (lowest_free (k.fds.map Prod.fst) (k.fds.length + 1) 0 : Nat)

/-- Whether a file admits `open` with the given mode. -/
def File.admits (f : File) : OFlag → Bool
  | .O_RDONLY => f.rd_open
  | .O_WRONLY => f.wr_open

/-- The `open(path, flags)` call: fails with -1 when the path is missing or the
mode is refused, otherwise enters a fresh descriptor in the table. -/
def sys_open (k : Kernel) (path : String) (flags : OFlag) : Int × Kernel :=
  match k.files.lookup path with
  | some f =>
    if f.admits flags then
      (fresh_fd k,
        { k with fds := (fresh_fd k, path, flags) :: k.fds,
                 trace := Event.ev_open path flags (fresh_fd k) :: k.trace })
    else (-1, { k with trace := Event.ev_open path flags (-1) :: k.trace })
  | none => (-1, { k with trace := Event.ev_open path flags (-1) :: k.trace })

/-- What a read of at most `n` bytes on `fd` delivers, when it succeeds. -/
def read_data (k : Kernel) (fd : Int) (n : Nat) : Option (List Char) :=
  match k.fds.lookup fd with
  | some (path, .O_RDONLY) =>
    match k.files.lookup path with
    | some f => if f.rd_ok then some (f.content.take n) else none
    | none => none
  | _ => none

/-- The `read(fd, s, n)` call: the byte count (or -1), the bytes stored at the
start of `s`, and the kernel with the call recorded. -/
def sys_read (k : Kernel) (fd : Int) (n : Nat) : Int × List Char × Kernel :=
  match read_data k fd n with
  | some d =>
    (d.length, d,
      { k with trace := Event.ev_read fd ((k.fds.lookup fd).map Prod.fst) d.length :: k.trace })
  | none =>
    (-1, [],
      { k with trace := Event.ev_read fd ((k.fds.lookup fd).map Prod.fst) (-1) :: k.trace })

/-- Whether a write on `fd` is accepted. -/
def write_ok (k : Kernel) (fd : Int) : Bool :=
  match k.fds.lookup fd with
  | some (path, .O_WRONLY) =>
    match k.files.lookup path with
    | some f => f.wr_ok
    | none => false
  | _ => false

/-- The `write(fd, bytes, len)` call: the byte count, or -1. -/
def sys_write (k : Kernel) (fd : Int) (bytes : List Char) : Int × Kernel :=
  let ret : Int := if write_ok k fd then (bytes.length : Int) else -1
  (ret,
    { k with trace := Event.ev_write fd ((k.fds.lookup fd).map Prod.fst) bytes ret :: k.trace })

/-- The `close(fd)` call: the descriptor leaves the table. -/
def sys_close (k : Kernel) (fd : Int) : Kernel :=
  { k with fds := k.fds.filter (fun e => decide (e.1 ≠ fd)),
           trace := Event.ev_close fd :: k.trace }

/-- A line handed to the Android logger (`ALOGE`, `ALOGD`, `ALOGV`); the
`strerror_r` text appended by the C code is not part of the model. -/
def alog (k : Kernel) (prio : Char) (msg : String) : Kernel :=
  { k with trace := Event.ev_log prio msg :: k.trace }

/-! ## C strings -/

/-- The C string held in a character array: the bytes before the first NUL. -/
def cstr (s : List Char) : List Char :=
  s.takeWhile (fun c => decide (c ≠ '\x00'))

/-- The C library `strlen`. -/
def strlen (s : List Char) : Nat :=
  (cstr s).length

/-- The C library `strncmp` on character arrays (a position past the end of the
list reads as NUL): zero exactly when the first `n` bytes agree up to a NUL. -/
def strncmp : List Char → List Char → Nat → Int
  | _, _, 0 => 0
  | a, b, n + 1 =>
    if a.headD '\x00' ≠ b.headD '\x00' then
      ((a.headD '\x00').toNat : Int) - ((b.headD '\x00').toNat : Int)
    else if a.headD '\x00' = '\x00' then 0
    else strncmp a.tail b.tail n

/-- The value of `(int) data` for a pointer-sized `data` on a 32-bit `int`. -/
def int_of_ptr (data : Nat) : Int :=
  if data % 2 ^ 32 < 2 ^ 31 then (data % 2 ^ 32 : Nat) else (data % 2 ^ 32 : Nat) - 2 ^ 32

/-- The C library `snprintf(buf, size, "%d", d)`: the decimal digits of `d`, with a
leading minus sign when negative, cut to what fits `size` bytes with the NUL. -/
def snprintf_d (size : Nat) (d : Int) : List Char :=
  (toString d).data.take (size - 1)

/-! ## Constants of `power.c` -/

def SCALING_GOVERNOR_PATH : String := "/sys/devices/system/cpu/cpu0/cpufreq/scaling_governor"
def BOOSTPULSE_ONDEMAND : String := "/sys/devices/system/cpu/cpufreq/ondemand/boostpulse"
def BOOSTPULSE_INTERACTIVE : String := "/sys/devices/system/cpu/cpufreq/interactive/boostpulse"
def SAMPLING_RATE_ONDEMAND : String := "/sys/devices/system/cpu/cpufreq/ondemand/sampling_rate"
def SAMPLING_RATE_SCREEN_ON : List Char := "50000".data
def SAMPLING_RATE_SCREEN_OFF : List Char := "500000".data

/-- The mutable fields of `struct cm_power_module`. -/
structure cm_power_module where
  boostpulse_fd : Int
  boostpulse_warned : Int
deriving DecidableEq, Repr

/-- The statically initialised module instance. -/
def HAL_MODULE_INFO_SYM : cm_power_module :=
  { boostpulse_fd := -1, boostpulse_warned := 0 }

/-- Modelled from the spec: the enumeration `power_hint_t` of `hardware/power.h`,
which is not part of this repository; the three kinds `power.c` names, and every
other value the caller may pass. -/
inductive power_hint_t
  | POWER_HINT_VSYNC
  | POWER_HINT_INTERACTION
  | POWER_HINT_CPU_BOOST
  | other (code : Nat)
deriving DecidableEq, Repr

/-! ## The functions of `power.c` -/

/-- C function `sysfs_read(path, s, num_bytes)`: the return value, the array `s` afterwards
and the kernel afterwards. -/
def sysfs_read (k : Kernel) (path : String) (s : List Char) (num_bytes : Nat) :
    Int × List Char × Kernel :=
  let o := sys_open k path OFlag.O_RDONLY
  if o.1 < 0 then
    (-1, s, alog o.2 'E' ("Error opening " ++ path))
  else
    let r := sys_read o.2 o.1 (num_bytes - 1)
    if r.1 < 0 then
      (-1, s, sys_close (alog r.2.2 'E' ("Error writing to " ++ path)) o.1)
    else
      (0, r.2.1 ++ '\x00' :: s.drop (r.1.toNat + 1), sys_close r.2.2 o.1)

/-- C function `sysfs_write(path, s)`: opens the path write-only, writes the C
string `s` and closes. -/
def sysfs_write (k : Kernel) (path : String) (s : List Char) : Kernel :=
  let o := sys_open k path OFlag.O_WRONLY
  if o.1 < 0 then
    alog o.2 'E' ("Error opening " ++ path)
  else
    let w := sys_write o.2 o.1 (cstr s)
    if w.1 < 0 then
      sys_close (alog w.2 'E' ("Error writing to " ++ path)) o.1
    else
      sys_close w.2 o.1

/-- The loop of `get_scaling_governor`; the argument is `len + 1`, so that the
loop condition `len >= 0` is the successor case. -/
def strip_newline (governor : List Char) : Nat → List Char
  | 0 => governor
  | len + 1 =>
    if governor.getD len '\x00' = '\n' ∨ governor.getD len '\x00' = '\r' then
      strip_newline (governor.set len '\x00') len
    else governor

/-- C function `get_scaling_governor(governor, size)`: the return value, the array
`governor` afterwards and the kernel afterwards. -/
def get_scaling_governor (k : Kernel) (governor : List Char) (size : Nat) :
    Int × List Char × Kernel :=
  let r := sysfs_read k SCALING_GOVERNOR_PATH governor size
  if r.1 = -1 then
    (-1, r.2.1, r.2.2)
  else
    (0, strip_newline r.2.1 (strlen r.2.1), r.2.2)

/-- The two `open` calls of `boostpulse_open`, chosen by the governor name. -/
def boostpulse_select (cm : cm_power_module) (governor : List Char) (k : Kernel) :
    cm_power_module × Kernel :=
  if strncmp governor "ondemand".data 8 = 0 then
    let o := sys_open k BOOSTPULSE_ONDEMAND OFlag.O_WRONLY
    ({ cm with boostpulse_fd := o.1 }, o.2)
  else if strncmp governor "interactive".data 11 = 0 then
    let o := sys_open k BOOSTPULSE_INTERACTIVE OFlag.O_WRONLY
    ({ cm with boostpulse_fd := o.1 }, o.2)
  else (cm, k)

/-- C function `boostpulse_open(cm)`; `governor` is the indeterminate initial content of the
local array. Returns `cm->boostpulse_fd`, the module and the kernel. -/
def boostpulse_open (cm : cm_power_module) (governor : List Char) (k : Kernel) :
    Int × cm_power_module × Kernel :=
  if cm.boostpulse_fd < 0 then
    let g := get_scaling_governor k governor 80
    if g.1 < 0 then
      (cm.boostpulse_fd, { cm with boostpulse_warned := 1 },
        alog g.2.2 'E' "Can't read scaling governor.")
    else
      let s := boostpulse_select cm g.2.1 g.2.2
      if s.1.boostpulse_fd < 0 ∧ s.1.boostpulse_warned = 0 then
        (s.1.boostpulse_fd, { s.1 with boostpulse_warned := 1 },
          alog s.2 'E' "Error opening boostpulse")
      else if s.1.boostpulse_fd > 0 then
        (s.1.boostpulse_fd, s.1, alog s.2 'D' "Opened boostpulse interface")
      else (s.1.boostpulse_fd, s.1, s.2)
  else (cm.boostpulse_fd, cm, k)

/-- The body of the `POWER_HINT_INTERACTION` / `POWER_HINT_CPU_BOOST` case. -/
def boost_case (cm : cm_power_module) (data : Nat) (governor : List Char) (k : Kernel) :
    cm_power_module × Kernel :=
  let b := boostpulse_open cm governor k
  if b.1 ≥ 0 then
    let duration : Int := if data ≠ 0 then int_of_ptr data else 1
    let w := sys_write b.2.2 b.2.1.boostpulse_fd (snprintf_d 80 duration)
    if w.1 < 0 then
      ({ b.2.1 with boostpulse_fd := -1, boostpulse_warned := 0 },
        sys_close (alog w.2 'E' "Error writing to boostpulse") b.2.1.boostpulse_fd)
    else (b.2.1, w.2)
  else (b.2.1, b.2.2)

/-- C function `cm_power_hint(module, hint, data)`; `data` is the pointer value (0 is
`NULL`), `governor` the indeterminate local array of `boostpulse_open`. -/
def cm_power_hint (cm : cm_power_module) (hint : power_hint_t) (data : Nat)
    (governor : List Char) (k : Kernel) : cm_power_module × Kernel :=
  match hint with
  | .POWER_HINT_INTERACTION => boost_case cm data governor k
  | .POWER_HINT_CPU_BOOST => boost_case cm data governor k
  | .POWER_HINT_VSYNC => (cm, k)
  | .other _ => (cm, k)

/-- C function `cm_power_set_interactive(module, on)` with `on_` for the C parameter `on`;
`governor` is the content of the
local array, which the function compares without ever storing to it. -/
def cm_power_set_interactive (on_ : Int) (governor : List Char) (k : Kernel) : Kernel :=
  if strncmp governor "ondemand".data 8 = 0 then
    sysfs_write k SAMPLING_RATE_ONDEMAND
      (if on_ ≠ 0 then SAMPLING_RATE_SCREEN_ON else SAMPLING_RATE_SCREEN_OFF)
  else
    alog k 'V' "Skipping sysfs_write to sampling_rate -- NOT using ondemand"

/-- C function `cm_power_init(module)`; `governor` as in `cm_power_set_interactive`. -/
def cm_power_init (governor : List Char) (k : Kernel) : Kernel :=
  if strncmp governor "ondemand".data 8 = 0 then
    sysfs_write k SAMPLING_RATE_ONDEMAND SAMPLING_RATE_SCREEN_ON
  else
    alog k 'V' "Skipping sysfs_write to sampling_rate -- NOT using ondemand"

/-! ## Observations on traces and executions -/

/-- The paths handed to `open`, newest first. -/
def opened_paths : List Event → List String
  | [] => []
  | Event.ev_open p _ _ :: t => p :: opened_paths t
  | _ :: t => opened_paths t

/-- The `write` calls of a trace, newest first: descriptor, the path it is open
on, and the bytes passed. -/
def file_writes : List Event → List (Int × Option String × List Char)
  | [] => []
  | Event.ev_write fd p b _ :: t => (fd, p, b) :: file_writes t
  | _ :: t => file_writes t

/-- The number of "Error opening boostpulse" lines in a trace. -/
def open_errors : List Event → Nat
  | [] => 0
  | Event.ev_log prio msg :: t =>
    (if prio = 'E' ∧ msg = "Error opening boostpulse" then 1 else 0) + open_errors t
  | _ :: t => open_errors t

/-- The pointer value a caller passes for the integer payload `n`: `(void *) n`
on a 32-bit target. -/
def ptr_of_int (n : Int) : Nat :=
  (n % 2 ^ 32).toNat

/-- Strips the maximal trailing run of line feeds and carriage returns. -/
def rstrip_crlf (s : List Char) : List Char :=
  s.rdropWhile (fun c => decide (c = '\n' ∨ c = '\r'))

/-- One thing that happens to the module: a call of one of the three entry
points (with the indeterminate content of the local array), or a change of the
files by the rest of the system. -/
inductive Action
  | init (governor : List Char)
  | set_interactive (on_ : Int) (governor : List Char)
  | hint (h : power_hint_t) (data : Nat) (governor : List Char)
  | env (files : List (String × File))
deriving DecidableEq, Repr

/-- The effect of one action on module and kernel. -/
def step (s : cm_power_module × Kernel) : Action → cm_power_module × Kernel
  | .init g => (s.1, cm_power_init g s.2)
  | .set_interactive o g => (s.1, cm_power_set_interactive o g s.2)
  | .hint h d g => cm_power_hint s.1 h d g s.2
  | .env fs => (s.1, { s.2 with files := fs })

/-- A sequential execution. -/
def run (s : cm_power_module × Kernel) (as : List Action) : cm_power_module × Kernel :=
  as.foldl step s

/-- The cached handle is absent, or it is an open write-only descriptor on one of
the two boost paths. -/
def handle_ok (s : cm_power_module × Kernel) : Bool :=
  decide (s.1.boostpulse_fd = -1) ||
    (decide (0 ≤ s.1.boostpulse_fd) &&
      (s.2.fds.lookup s.1.boostpulse_fd == some (BOOSTPULSE_ONDEMAND, OFlag.O_WRONLY) ||
       s.2.fds.lookup s.1.boostpulse_fd == some (BOOSTPULSE_INTERACTIVE, OFlag.O_WRONLY)))

/-- The boost path the claimed invariant asks for under governor name `g`. -/
def boost_path_for (g : List Char) : Option String :=
  if g = "ondemand".data then some BOOSTPULSE_ONDEMAND
  else if g = "interactive".data then some BOOSTPULSE_INTERACTIVE
  else none

/-- The invariant with "matches the governor" read against the governor file as
it is now: absent, or open write-only on the boost path of the current governor. -/
def handle_matches_now (s : cm_power_module × Kernel) : Bool :=
  decide (s.1.boostpulse_fd < 0) ||
    (let g := get_scaling_governor s.2 [] 80
     decide (g.1 = 0) &&
       (match boost_path_for (cstr g.2.1) with
        | some p => s.2.fds.lookup s.1.boostpulse_fd == some (p, OFlag.O_WRONLY)
        | none => false))

/-- Repeated calls of `boostpulse_open`, one per given content of its local array. -/
def boostpulse_open_seq (s : cm_power_module × Kernel) (gs : List (List Char)) :
    cm_power_module × Kernel :=
  gs.foldl (fun t g => (boostpulse_open t.1 g t.2).2) s

/-! ## Concrete kernels for evaluation -/

/-- A sysfs tree: the governor file with the given content, both boostpulse files
and the sampling-rate file; `wr` says whether writes to the boostpulse files are
accepted. -/
def sysfs_files (gov : List Char) (wr : Bool) : List (String × File) :=
  [(SCALING_GOVERNOR_PATH, ⟨gov, true, true, false, false⟩),
   (BOOSTPULSE_ONDEMAND, ⟨[], false, false, true, wr⟩),
   (BOOSTPULSE_INTERACTIVE, ⟨[], false, false, true, wr⟩),
   (SAMPLING_RATE_ONDEMAND, ⟨[], true, true, true, true⟩)]

/-- A sysfs tree without the ondemand directory (no boostpulse, no sampling rate
for ondemand). -/
def sysfs_files_no_ondemand (gov : List Char) : List (String × File) :=
  [(SCALING_GOVERNOR_PATH, ⟨gov, true, true, false, false⟩),
   (BOOSTPULSE_INTERACTIVE, ⟨[], false, false, true, true⟩)]

/-- A process with the three standard descriptors open and an empty trace. -/
def boot (files : List (String × File)) : Kernel :=
  { files := files,
    fds := [(0, "/dev/null", OFlag.O_RDONLY), (1, "/dev/null", OFlag.O_WRONLY),
            (2, "/dev/null", OFlag.O_WRONLY)],
    trace := [] }

/-! ## Facts about the kernel model -/

theorem lowest_free_not_mem (used : List Int) :
    ∀ fuel n : Nat, (used.toFinset.filter (fun x => (n : Int) ≤ x)).card < fuel →
      ((lowest_free used fuel n : Nat) : Int) ∉ used := by
  intro fuel
  induction fuel with
  | zero => intro n h; exact absurd h (Nat.not_lt_zero _)
  | succ f ih =>
    intro n h
    unfold lowest_free
    split
    · rename_i hmem
      apply ih
      have hss : used.toFinset.filter (fun x => ((n + 1 : Nat) : Int) ≤ x) ⊂
          used.toFinset.filter (fun x => (n : Int) ≤ x) := by
        rw [Finset.ssubset_iff_of_subset]
        · refine ⟨(n : Int), ?_, ?_⟩
          · simp [hmem]
          · simp
        · intro x hx
          simp only [Finset.mem_filter, List.mem_toFinset] at hx ⊢
          refine ⟨hx.1, ?_⟩
          have := hx.2
          push_cast at this
          omega
      have := Finset.card_lt_card hss
      omega
    · assumption

theorem fresh_fd_not_mem (k : Kernel) : fresh_fd k ∉ k.fds.map Prod.fst := by
  unfold fresh_fd
  apply lowest_free_not_mem
  have h1 : ((k.fds.map Prod.fst).toFinset.filter (fun x => ((0 : Nat) : Int) ≤ x)).card
      ≤ (k.fds.map Prod.fst).toFinset.card := Finset.card_filter_le _ _
  have h2 := List.toFinset_card_le (k.fds.map Prod.fst)
  simp only [List.length_map] at h2
  omega

theorem fresh_fd_nonneg (k : Kernel) : 0 ≤ fresh_fd k := by
  unfold fresh_fd
  exact Int.ofNat_nonneg _

theorem lookup_fresh_fd (k : Kernel) : k.fds.lookup (fresh_fd k) = none := by
  rw [List.lookup_eq_none_iff]
  intro p hp
  have := fresh_fd_not_mem k
  simp only [bne_iff_ne, ne_eq]
  intro h
  apply this
  simp only [List.mem_map]
  exact ⟨p, hp, h.symm⟩

theorem fds_ne_fresh (k : Kernel) :
    ∀ (a : Int) (p : String) (fl : OFlag), (a, p, fl) ∈ k.fds → ¬ a = fresh_fd k := by
  intro a p fl he h
  apply fresh_fd_not_mem k
  simp only [List.mem_map]
  exact ⟨(a, p, fl), he, h⟩

theorem close_after_open (k : Kernel) :
    k.fds.filter (fun e => decide (e.1 ≠ fresh_fd k)) = k.fds := by
  rw [List.filter_eq_self]
  intro e he
  simp only [ne_eq, decide_not, Bool.not_eq_true', decide_eq_false_iff_not]
  exact fds_ne_fresh k e.1 e.2.1 e.2.2 he

theorem sys_open_cases (k : Kernel) (p : String) (fl : OFlag) :
    (sys_open k p fl = (-1, { k with trace := Event.ev_open p fl (-1) :: k.trace })) ∨
    (sys_open k p fl = (fresh_fd k,
        { k with fds := (fresh_fd k, p, fl) :: k.fds,
                 trace := Event.ev_open p fl (fresh_fd k) :: k.trace })) := by
  unfold sys_open
  split
  · split
    · right; rfl
    · left; rfl
  · left; rfl

theorem sys_open_ok_iff (k : Kernel) (p : String) (fl : OFlag) :
    0 ≤ (sys_open k p fl).1 ↔ ∃ f, k.files.lookup p = some f ∧ f.admits fl = true := by
  unfold sys_open
  split
  · rename_i f hf
    split
    · rename_i h
      simp only [fresh_fd_nonneg, true_iff]
      exact ⟨f, hf, h⟩
    · rename_i h
      simp only [Left.nonneg_neg_iff, Int.reduceLE, false_iff, not_exists, not_and]
      intro f2 hf2
      rw [hf] at hf2
      cases hf2
      exact h
  · rename_i hf
    simp only [Left.nonneg_neg_iff, Int.reduceLE, false_iff, not_exists, not_and]
    intro f2 hf2
    rw [hf] at hf2
    cases hf2

theorem sys_read_cases (k : Kernel) (fd : Int) (n : Nat) :
    (sys_read k fd n = (-1, [],
        { k with trace := Event.ev_read fd ((k.fds.lookup fd).map Prod.fst) (-1) :: k.trace })
      ∧ read_data k fd n = none) ∨
    (∃ d, read_data k fd n = some d ∧ sys_read k fd n = ((d.length : Int), d,
        { k with trace :=
            Event.ev_read fd ((k.fds.lookup fd).map Prod.fst) d.length :: k.trace })) := by
  unfold sys_read
  cases hd : read_data k fd n with
  | none => left; exact ⟨rfl, rfl⟩
  | some d => right; exact ⟨d, rfl, rfl⟩

/-- What `sysfs_read` does, case by case: the open fails, the read fails, or the
bytes land in the array followed by a NUL. In every case the descriptor table
and the files are as before. -/
theorem sysfs_read_cases (k : Kernel) (p : String) (s : List Char) (n : Nat) :
    (sysfs_read k p s n = (-1, s,
        { k with trace := Event.ev_log 'E' ("Error opening " ++ p) ::
                          Event.ev_open p OFlag.O_RDONLY (-1) :: k.trace })) ∨
    (sysfs_read k p s n = (-1, s,
        { k with trace := Event.ev_close (fresh_fd k) ::
                          Event.ev_log 'E' ("Error writing to " ++ p) ::
                          Event.ev_read (fresh_fd k) (some p) (-1) ::
                          Event.ev_open p OFlag.O_RDONLY (fresh_fd k) :: k.trace })) ∨
    (∃ f, k.files.lookup p = some f ∧
      sysfs_read k p s n = (0,
        f.content.take (n - 1) ++ '\x00' :: s.drop ((f.content.take (n - 1)).length + 1),
        { k with trace := Event.ev_close (fresh_fd k) ::
                          Event.ev_read (fresh_fd k) (some p)
                            ((f.content.take (n - 1)).length : Nat) ::
                          Event.ev_open p OFlag.O_RDONLY (fresh_fd k) :: k.trace })) := by
  have hnn := fresh_fd_nonneg k
  have hclose := fds_ne_fresh k
  rcases sys_open_cases k p OFlag.O_RDONLY with ho | ho
  · left
    simp [sysfs_read, ho, alog]
  · right
    have hlk : List.lookup (fresh_fd k) ((fresh_fd k, p, OFlag.O_RDONLY) :: k.fds)
        = some (p, OFlag.O_RDONLY) := by simp [List.lookup]
    cases hf : k.files.lookup p with
    | none =>
      left
      simp [sysfs_read, ho, sys_read, read_data, hlk, hf, alog, sys_close, not_lt.mpr hnn]
      exact hclose
    | some f =>
      cases hr : f.rd_ok with
      | false =>
        left
        simp [sysfs_read, ho, sys_read, read_data, hlk, hf, hr, alog, sys_close,
          not_lt.mpr hnn]
        exact hclose
      | true =>
        right
        refine ⟨f, rfl, ?_⟩
        have h0 : ¬ ((List.take (n - 1) f.content).length : Int) < 0 := by
          exact not_lt.mpr (Int.ofNat_nonneg _)
        simp only [sysfs_read, ho, sys_read, read_data, hlk, hf, hr, sys_close,
          not_lt.mpr hnn, h0, if_true, if_false, Int.toNat_ofNat, Option.map_some']
        have hc := close_after_open k
        simp only [List.filter_cons, ne_eq, not_true_eq_false, decide_False,
          Bool.false_eq_true, if_false, hc]

/-- The `write` calls of `sysfs_write`: one, on the fresh descriptor, when the
path opens write-only; none otherwise. The descriptor table is as before. -/
theorem sysfs_write_effect (k : Kernel) (p : String) (s : List Char) :
    (sysfs_write k p s).fds = k.fds ∧ (sysfs_write k p s).files = k.files ∧
    file_writes (sysfs_write k p s).trace =
      (if 0 ≤ (sys_open k p OFlag.O_WRONLY).1 then
        (fresh_fd k, some p, cstr s) :: file_writes k.trace
       else file_writes k.trace) ∧
    opened_paths (sysfs_write k p s).trace = p :: opened_paths k.trace := by
  have hnn := fresh_fd_nonneg k
  have hc := close_after_open k
  rcases sys_open_cases k p OFlag.O_WRONLY with ho | ho
  · simp [sysfs_write, ho, alog, file_writes, opened_paths]
  · have hlk : List.lookup (fresh_fd k) ((fresh_fd k, p, OFlag.O_WRONLY) :: k.fds)
        = some (p, OFlag.O_WRONLY) := by simp [List.lookup]
    simp only [sysfs_write, ho, sys_write, hlk, not_lt.mpr hnn, if_false, hnn, if_true,
      Option.map_some']
    have h0 : ¬ (((cstr s).length : Int) < 0) := not_lt.mpr (Int.ofNat_nonneg _)
    have h1 : ((-1 : Int) < 0) := by decide
    split <;>
      simp only [sys_close, alog, List.filter_cons, ne_eq, not_true_eq_false, decide_False,
        Bool.false_eq_true, if_false, hc, file_writes, opened_paths, and_self, h0, h1,
        if_true]

/-! ## Facts about the C string functions -/

theorem cstr_append_nul (l tail : List Char) : cstr (l ++ '\x00' :: tail) = cstr l := by
  induction l with
  | nil => simp [cstr]
  | cons c t ih =>
    unfold cstr at ih ⊢
    by_cases hc : c = '\x00'
    · simp [List.takeWhile, hc]
    · have hd : decide (c ≠ '\x00') = true := by simpa using hc
      simp only [List.cons_append, List.takeWhile_cons, hd, if_true, ih]

theorem cstr_of_no_nul (l : List Char) (h : ∀ c ∈ l, c ≠ '\x00') : cstr l = l := by
  unfold cstr
  rw [List.takeWhile_eq_self_iff]
  intro c hc
  simpa using h c hc

theorem cstr_no_nul (l : List Char) : ∀ c ∈ cstr l, c ≠ '\x00' := by
  intro c hc
  unfold cstr at hc
  simpa using List.mem_takeWhile_imp hc

theorem split_at_nul (l tail : List Char) :
    ∃ rest, l ++ '\x00' :: tail = cstr l ++ '\x00' :: rest := by
  induction l with
  | nil => exact ⟨tail, by simp [cstr]⟩
  | cons c t ih =>
    by_cases hc : c = '\x00'
    · exact ⟨t ++ '\x00' :: tail, by simp [cstr, List.takeWhile, hc]⟩
    · obtain ⟨rest, hr⟩ := ih
      refine ⟨rest, ?_⟩
      have : cstr (c :: t) = c :: cstr t := by simp [cstr, List.takeWhile, hc]
      rw [this]
      simp [hr]

/-- The stripping loop, run from the NUL that ends a C string, leaves that
string without its trailing line feeds and carriage returns. -/
theorem strip_newline_spec (pre : List Char) :
    ∀ rest : List Char, (∀ c ∈ pre, c ≠ '\x00') →
      cstr (strip_newline (pre ++ '\x00' :: rest) pre.length) = rstrip_crlf pre := by
  induction pre using List.reverseRecOn with
  | nil =>
    intro rest _
    simp [strip_newline, cstr, rstrip_crlf]
  | append_singleton p c ih =>
    intro rest h
    have hp : ∀ x ∈ p, x ≠ '\x00' := fun x hx => h x (by simp [hx])
    have hget : (p ++ [c] ++ '\x00' :: rest).getD p.length '\x00' = c := by
      simp only [List.getD_eq_getElem?_getD, List.append_assoc, List.singleton_append]
      rw [List.getElem?_append_right (le_refl _)]
      simp
    have hset : (p ++ [c] ++ '\x00' :: rest).set p.length '\x00'
        = p ++ '\x00' :: '\x00' :: rest := by
      simp [List.set_append_right]
    simp only [List.length_append, List.length_singleton, strip_newline, hget]
    by_cases hc : c = '\n' ∨ c = '\r'
    · rw [if_pos hc, hset, ih _ hp]
      unfold rstrip_crlf
      rw [List.rdropWhile_concat_pos]
      simpa using hc
    · rw [if_neg hc]
      have hall : ∀ x ∈ p ++ [c], x ≠ '\x00' := h
      rw [cstr_append_nul, cstr_of_no_nul _ hall]
      unfold rstrip_crlf
      rw [List.rdropWhile_concat_neg]
      simpa using hc

theorem rstrip_crlf_spec (s : List Char) :
    (∃ t, s = rstrip_crlf s ++ t ∧ ∀ c ∈ t, c = '\n' ∨ c = '\r') ∧
    (∀ c, (rstrip_crlf s).getLast? = some c → c ≠ '\n' ∧ c ≠ '\r') := by
  induction s using List.reverseRecOn with
  | nil => simp [rstrip_crlf]
  | append_singleton p c ih =>
    by_cases hc : c = '\n' ∨ c = '\r'
    · have : rstrip_crlf (p ++ [c]) = rstrip_crlf p := by
        unfold rstrip_crlf
        rw [List.rdropWhile_concat_pos]
        simpa using hc
      rw [this]
      obtain ⟨⟨t, ht, htc⟩, hl⟩ := ih
      refine ⟨⟨t ++ [c], ?_, ?_⟩, hl⟩
      · rw [← List.append_assoc, ← ht]
      · intro x hx
        simp only [List.mem_append, List.mem_singleton] at hx
        rcases hx with hx | hx
        · exact htc x hx
        · rw [hx]; exact hc
    · have : rstrip_crlf (p ++ [c]) = p ++ [c] := by
        unfold rstrip_crlf
        rw [List.rdropWhile_concat_neg]
        simpa using hc
      rw [this]
      refine ⟨⟨[], by simp, by simp⟩, ?_⟩
      intro x hx
      rw [List.getLast?_concat] at hx
      cases hx
      exact ⟨fun h => hc (Or.inl h), fun h => hc (Or.inr h)⟩

theorem char_toNat_inj (x c : Char) (h : x.toNat = c.toNat) : x = c := by
  apply Char.ext
  apply UInt32.ext
  exact h

/-- For a literal without NUL, `strncmp` over the literal's length is zero exactly
when the array starts with the literal. -/
theorem strncmp_eq_zero_iff (lit : List Char) (hl : ∀ c ∈ lit, c ≠ '\x00') :
    ∀ a : List Char, strncmp a lit lit.length = 0 ↔ lit <+: a := by
  induction lit with
  | nil => intro a; simp [strncmp]
  | cons c l ih =>
    intro a
    have hc : c ≠ '\x00' := hl c (by simp)
    have hl2 : ∀ x ∈ l, x ≠ '\x00' := fun x hx => hl x (by simp [hx])
    cases a with
    | nil =>
      have h0 : ¬ (c.toNat = 0) := by
        intro h
        exact hc (char_toNat_inj c '\x00' h)
      simp [strncmp, hc.symm, h0]
    | cons x t =>
      by_cases hx : x = c
      · subst hx
        simp [strncmp, hc, ih hl2 t]
      · have h0 : ¬ ((x.toNat : Int) - (c.toNat : Int) = 0) := by
          intro h
          apply hx
          apply char_toNat_inj
          omega
        have h1 : ¬ c = x := fun h => hx h.symm
        simp [strncmp, hx, h0, h1]

theorem lit_prefix_cstr_iff (lit : List Char) (hl : ∀ c ∈ lit, c ≠ '\x00') (a : List Char) :
    lit <+: cstr a ↔ lit <+: a := by
  constructor
  · intro h
    exact h.trans (List.takeWhile_prefix _)
  · rintro ⟨t, rfl⟩
    refine ⟨cstr t, ?_⟩
    unfold cstr
    rw [List.takeWhile_append_of_pos]
    intro c hc
    simpa using hl c hc

theorem ondemand_no_nul : ∀ c ∈ "ondemand".data, c ≠ '\x00' := by decide

theorem interactive_no_nul : ∀ c ∈ "interactive".data, c ≠ '\x00' := by decide

theorem strncmp_ondemand (a : List Char) :
    strncmp a "ondemand".data 8 = 0 ↔ "ondemand".data <+: cstr a := by
  rw [lit_prefix_cstr_iff _ ondemand_no_nul]
  exact strncmp_eq_zero_iff "ondemand".data ondemand_no_nul a

theorem strncmp_interactive (a : List Char) :
    strncmp a "interactive".data 11 = 0 ↔ "interactive".data <+: cstr a := by
  rw [lit_prefix_cstr_iff _ interactive_no_nul]
  exact strncmp_eq_zero_iff "interactive".data interactive_no_nul a

/-! ## Facts about the functions of `power.c` -/

/-- What `get_scaling_governor` does to the kernel and what it returns: the table
and the files are untouched, the one path opened is the governor file, nothing
is written, and on success the array holds the start of the file, cut at the
first NUL, without its trailing line feeds and carriage returns. -/
theorem get_scaling_governor_spec (k : Kernel) (buf : List Char) (n : Nat) :
    (get_scaling_governor k buf n).2.2.fds = k.fds ∧
    (get_scaling_governor k buf n).2.2.files = k.files ∧
    opened_paths (get_scaling_governor k buf n).2.2.trace
      = SCALING_GOVERNOR_PATH :: opened_paths k.trace ∧
    file_writes (get_scaling_governor k buf n).2.2.trace = file_writes k.trace ∧
    open_errors (get_scaling_governor k buf n).2.2.trace = open_errors k.trace ∧
    (∃ pre r, (get_scaling_governor k buf n).2.2.trace
      = pre ++ Event.ev_open SCALING_GOVERNOR_PATH OFlag.O_RDONLY r :: k.trace) ∧
    ((get_scaling_governor k buf n).1 = -1 ∨
      ((get_scaling_governor k buf n).1 = 0 ∧
        ∃ f, k.files.lookup SCALING_GOVERNOR_PATH = some f ∧
          cstr (get_scaling_governor k buf n).2.1
            = rstrip_crlf (cstr (f.content.take (n - 1))))) := by
  have e1 : ¬ ("Error opening " ++ SCALING_GOVERNOR_PATH = "Error opening boostpulse") := by
    decide
  have e2 : ¬ ("Error writing to " ++ SCALING_GOVERNOR_PATH = "Error opening boostpulse") := by
    decide
  rcases sysfs_read_cases k SCALING_GOVERNOR_PATH buf n with h | h | ⟨f, hf, h⟩
  · simp only [get_scaling_governor, h, if_true, opened_paths, file_writes, open_errors, e1,
      and_false, if_false, Nat.zero_add, true_and, true_or, and_true]
    exact ⟨[_], _, rfl⟩
  · simp only [get_scaling_governor, h, if_true, opened_paths, file_writes, open_errors, e2,
      and_false, if_false, Nat.zero_add, true_and, true_or, and_true]
    exact ⟨[_, _, _], _, rfl⟩
  · have h0 : ¬ ((0 : Int) = -1) := by decide
    simp only [get_scaling_governor, h, h0, if_false, opened_paths, file_writes, open_errors,
      true_and, false_or]
    refine ⟨⟨[_, _], _, rfl⟩, f, hf, ?_⟩
    obtain ⟨rest, hr⟩ := split_at_nul (List.take (n - 1) f.content)
      (List.drop ((List.take (n - 1) f.content).length + 1) buf)
    unfold strlen
    rw [cstr_append_nul, hr]
    exact strip_newline_spec _ rest (cstr_no_nul _)

/-- The five ways the path selection of `boostpulse_open` can go. -/
theorem boostpulse_select_cases (cm : cm_power_module) (g : List Char) (k : Kernel) :
    ("ondemand".data <+: cstr g ∧
      0 ≤ (sys_open k BOOSTPULSE_ONDEMAND OFlag.O_WRONLY).1 ∧
      boostpulse_select cm g k = ({ cm with boostpulse_fd := fresh_fd k },
        { k with fds := (fresh_fd k, BOOSTPULSE_ONDEMAND, OFlag.O_WRONLY) :: k.fds,
                 trace := Event.ev_open BOOSTPULSE_ONDEMAND OFlag.O_WRONLY (fresh_fd k)
                            :: k.trace })) ∨
    ("ondemand".data <+: cstr g ∧
      ¬ 0 ≤ (sys_open k BOOSTPULSE_ONDEMAND OFlag.O_WRONLY).1 ∧
      boostpulse_select cm g k = ({ cm with boostpulse_fd := -1 },
        { k with trace := Event.ev_open BOOSTPULSE_ONDEMAND OFlag.O_WRONLY (-1)
                            :: k.trace })) ∨
    (¬ "ondemand".data <+: cstr g ∧ "interactive".data <+: cstr g ∧
      0 ≤ (sys_open k BOOSTPULSE_INTERACTIVE OFlag.O_WRONLY).1 ∧
      boostpulse_select cm g k = ({ cm with boostpulse_fd := fresh_fd k },
        { k with fds := (fresh_fd k, BOOSTPULSE_INTERACTIVE, OFlag.O_WRONLY) :: k.fds,
                 trace := Event.ev_open BOOSTPULSE_INTERACTIVE OFlag.O_WRONLY (fresh_fd k)
                            :: k.trace })) ∨
    (¬ "ondemand".data <+: cstr g ∧ "interactive".data <+: cstr g ∧
      ¬ 0 ≤ (sys_open k BOOSTPULSE_INTERACTIVE OFlag.O_WRONLY).1 ∧
      boostpulse_select cm g k = ({ cm with boostpulse_fd := -1 },
        { k with trace := Event.ev_open BOOSTPULSE_INTERACTIVE OFlag.O_WRONLY (-1)
                            :: k.trace })) ∨
    (¬ "ondemand".data <+: cstr g ∧ ¬ "interactive".data <+: cstr g ∧
      boostpulse_select cm g k = (cm, k)) := by
  have hnn := fresh_fd_nonneg k
  have hneg : ¬ ((0 : Int) ≤ -1) := by decide
  unfold boostpulse_select
  by_cases ho : "ondemand".data <+: cstr g
  · rw [if_pos ((strncmp_ondemand g).2 ho)]
    rcases sys_open_cases k BOOSTPULSE_ONDEMAND OFlag.O_WRONLY with h | h
    · right; left
      rw [h]
      exact ⟨ho, hneg, rfl⟩
    · left
      rw [h]
      exact ⟨ho, hnn, rfl⟩
  · rw [if_neg (fun h => ho ((strncmp_ondemand g).1 h))]
    by_cases hi : "interactive".data <+: cstr g
    · rw [if_pos ((strncmp_interactive g).2 hi)]
      rcases sys_open_cases k BOOSTPULSE_INTERACTIVE OFlag.O_WRONLY with h | h
      · right; right; right; left
        rw [h]
        exact ⟨ho, hi, hneg, rfl⟩
      · right; right; left
        rw [h]
        exact ⟨ho, hi, hnn, rfl⟩
    · rw [if_neg (fun h => hi ((strncmp_interactive g).1 h))]
      right; right; right; right
      exact ⟨ho, hi, rfl⟩

theorem sysfs_read_succeeds (k : Kernel) (p : String) (s : List Char) (n : Nat) (f : File)
    (hf : k.files.lookup p = some f) (ho : f.rd_open = true) (hr : f.rd_ok = true) :
    (sysfs_read k p s n).1 = 0 := by
  have hnn := fresh_fd_nonneg k
  have hlk : List.lookup (fresh_fd k) ((fresh_fd k, p, OFlag.O_RDONLY) :: k.fds)
      = some (p, OFlag.O_RDONLY) := by simp [List.lookup]
  have h0 : ¬ ((List.take (n - 1) f.content).length : Int) < 0 :=
    not_lt.mpr (Int.ofNat_nonneg _)
  simp only [sysfs_read, sys_open, hf, File.admits, ho, if_true, sys_read, read_data, hlk, hr,
    not_lt.mpr hnn, if_false, h0]

/-- The value `boostpulse_open` returns is the handle it leaves in the module. -/
theorem boostpulse_open_ret (cm : cm_power_module) (g : List Char) (k : Kernel) :
    (boostpulse_open cm g k).2.1.boostpulse_fd = (boostpulse_open cm g k).1 := by
  unfold boostpulse_open
  dsimp only
  split_ifs <;> rfl

theorem lookup_cons_fresh (k : Kernel) (e : String × OFlag) (fd : Int) (x : String × OFlag)
    (h : k.fds.lookup fd = some x) :
    List.lookup fd ((fresh_fd k, e) :: k.fds) = some x := by
  have hne : ¬ fd = fresh_fd k := by
    intro heq
    rw [heq, lookup_fresh_fd] at h
    cases h
  have hb : (fd == fresh_fd k) = false := by simpa using hne
  simp only [List.lookup_cons, hb, h]

theorem lookup_cons_self (k : Kernel) (e : String × OFlag) :
    List.lookup (fresh_fd k) ((fresh_fd k, e) :: k.fds) = some e := by
  simp [List.lookup]

/-- What `boostpulse_open` leaves alone: it writes nothing, does not touch the
files, keeps every open descriptor open, and a handle it newly yields is a
write-only descriptor on one of the two boost paths, chosen by the start of the
governor name just read. -/
theorem boostpulse_open_frame (cm : cm_power_module) (g : List Char) (k : Kernel) :
    file_writes (boostpulse_open cm g k).2.2.trace = file_writes k.trace ∧
    (boostpulse_open cm g k).2.2.files = k.files ∧
    (∀ fd x, k.fds.lookup fd = some x →
      (boostpulse_open cm g k).2.2.fds.lookup fd = some x) ∧
    (cm.boostpulse_fd < 0 → 0 ≤ (boostpulse_open cm g k).1 →
      (get_scaling_governor k g 80).1 = 0 ∧
      (("ondemand".data <+: cstr (get_scaling_governor k g 80).2.1 ∧
        (boostpulse_open cm g k).2.2.fds.lookup (boostpulse_open cm g k).1
          = some (BOOSTPULSE_ONDEMAND, OFlag.O_WRONLY)) ∨
       (¬ "ondemand".data <+: cstr (get_scaling_governor k g 80).2.1 ∧
        "interactive".data <+: cstr (get_scaling_governor k g 80).2.1 ∧
        (boostpulse_open cm g k).2.2.fds.lookup (boostpulse_open cm g k).1
          = some (BOOSTPULSE_INTERACTIVE, OFlag.O_WRONLY)))) ∧
    (cm.boostpulse_fd < 0 → (boostpulse_open cm g k).1 < 0 →
      (boostpulse_open cm g k).1 = cm.boostpulse_fd ∨ (boostpulse_open cm g k).1 = -1) := by
  by_cases hfd : cm.boostpulse_fd < 0
  · obtain ⟨hfds, hfiles, -, hw, -, -, hr⟩ := get_scaling_governor_spec k g 80
    have hnn := fresh_fd_nonneg (get_scaling_governor k g 80).2.2
    have hm1 : (-1 : Int) < 0 := by decide
    have hm2 : ¬ ((0 : Int) ≤ -1) := by decide
    have hm3 : ¬ ((0 : Int) = -1) := by decide
    have hm4 : ¬ ((0 : Int) < 0) := by decide
    have hm5 : ¬ ((-1 : Int) > 0) := by decide
    have hlk := lookup_cons_fresh (get_scaling_governor k g 80).2.2
    have hls := lookup_cons_self (get_scaling_governor k g 80).2.2
    rw [hfds] at hlk hls
    unfold boostpulse_open
    rcases hr with hr | ⟨hr, -⟩
    · simp only [hfd, if_true, hr, hm1, alog, file_writes, hw, hfiles, hfds, true_and,
        not_le.mpr hfd, false_implies, imp_self, implies_true, and_true, true_or]
    · simp only [hfd, if_true, hr, hm4, if_false]
      rcases boostpulse_select_cases cm (get_scaling_governor k g 80).2.1
        (get_scaling_governor k g 80).2.2 with h | h | h | h | h
      · obtain ⟨h1, -, h3⟩ := h
        simp only [h3, not_lt.mpr hnn, false_and, if_false]
        split_ifs <;>
          simp only [alog, file_writes, hw, hfiles, true_and, hnn, not_lt.mpr hnn, h1,
            hls, hfds, true_implies, false_implies, and_true, not_true_eq_false, false_and,
            or_false, and_self, implies_true] <;>
          exact fun fd x hx => hlk _ fd x hx
      · obtain ⟨h1, -, h3⟩ := h
        simp only [h3, hm1, true_and, hm5, if_false]
        split_ifs <;>
          simp only [alog, file_writes, hw, hfiles, true_and, hm2, hfds, false_implies,
            imp_self, implies_true, or_true, and_self]
      · obtain ⟨h1, h2, -, h3⟩ := h
        simp only [h3, not_lt.mpr hnn, false_and, if_false]
        split_ifs <;>
          simp only [alog, file_writes, hw, hfiles, true_and, hnn, not_lt.mpr hnn, h1, h2,
            hls, hfds, true_implies, false_implies, and_true, not_true_eq_false, false_and,
            not_false_eq_true, false_or, and_self, implies_true] <;>
          exact fun fd x hx => hlk _ fd x hx
      · obtain ⟨h1, h2, -, h3⟩ := h
        simp only [h3, hm1, true_and, hm5, if_false]
        split_ifs <;>
          simp only [alog, file_writes, hw, hfiles, true_and, hm2, hfds, false_implies,
            imp_self, implies_true, or_true, and_self]
      · obtain ⟨h1, h2, h3⟩ := h
        have hpos : ¬ cm.boostpulse_fd > 0 := by omega
        simp only [h3, hfd, true_and, hpos, if_false]
        split_ifs <;>
          simp only [alog, file_writes, hw, hfiles, true_and, not_le.mpr hfd, hfds,
            false_implies, imp_self, implies_true, true_or, and_self]
  · simp [boostpulse_open, hfd]

/-- With the handle absent, the first thing `boostpulse_open` does is open the
governor file. -/
theorem boostpulse_open_rereads (cm : cm_power_module) (g : List Char) (k : Kernel)
    (hfd : cm.boostpulse_fd < 0) :
    ∃ pre r, (boostpulse_open cm g k).2.2.trace
      = pre ++ Event.ev_open SCALING_GOVERNOR_PATH OFlag.O_RDONLY r :: k.trace := by
  obtain ⟨-, -, -, -, -, ⟨pre, r, htr⟩, -⟩ := get_scaling_governor_spec k g 80
  have ext : ∀ (t : List Event) (x : Event),
      (∃ pre r, t = pre ++ Event.ev_open SCALING_GOVERNOR_PATH OFlag.O_RDONLY r :: k.trace) →
      ∃ pre r, x :: t
        = pre ++ Event.ev_open SCALING_GOVERNOR_PATH OFlag.O_RDONLY r :: k.trace := by
    rintro t x ⟨p, q, rfl⟩
    exact ⟨x :: p, q, rfl⟩
  have base : ∃ pre r, (get_scaling_governor k g 80).2.2.trace
      = pre ++ Event.ev_open SCALING_GOVERNOR_PATH OFlag.O_RDONLY r :: k.trace :=
    ⟨pre, r, htr⟩
  unfold boostpulse_open
  simp only [hfd, if_true]
  split_ifs
  · exact ext _ _ base
  all_goals
    rcases boostpulse_select_cases cm (get_scaling_governor k g 80).2.1
      (get_scaling_governor k g 80).2.2 with h | h | h | h | h
    all_goals
      first
        | simp only [h.2.2.2, alog]
        | simp only [h.2.2, alog]
      first
        | exact base
        | exact ext _ _ base
        | exact ext _ _ (ext _ _ base)

/-- How `boostpulse_open` logs when the handle is absent and the governor was
read: an "Error opening boostpulse" line appears exactly when no handle results
and `boostpulse_warned` was clear, and that sets the flag; otherwise the flag
stays as it was, also when the open succeeds. -/
theorem boostpulse_open_logging (cm : cm_power_module) (g : List Char) (k : Kernel)
    (hfd : cm.boostpulse_fd < 0) (hread : (get_scaling_governor k g 80).1 = 0) :
    ((boostpulse_open cm g k).1 < 0 → cm.boostpulse_warned = 0 →
      open_errors (boostpulse_open cm g k).2.2.trace = open_errors k.trace + 1 ∧
      (∃ t, (boostpulse_open cm g k).2.2.trace
        = Event.ev_log 'E' "Error opening boostpulse" :: t) ∧
      (boostpulse_open cm g k).2.1.boostpulse_warned = 1) ∧
    ((boostpulse_open cm g k).1 < 0 → cm.boostpulse_warned ≠ 0 →
      open_errors (boostpulse_open cm g k).2.2.trace = open_errors k.trace ∧
      (boostpulse_open cm g k).2.1.boostpulse_warned = cm.boostpulse_warned) ∧
    (0 ≤ (boostpulse_open cm g k).1 →
      open_errors (boostpulse_open cm g k).2.2.trace = open_errors k.trace ∧
      (boostpulse_open cm g k).2.1.boostpulse_warned = cm.boostpulse_warned) := by
  obtain ⟨-, -, -, -, herr, -, -⟩ := get_scaling_governor_spec k g 80
  have hnn := fresh_fd_nonneg (get_scaling_governor k g 80).2.2
  have hm4 : ¬ ((0 : Int) < 0) := by decide
  have hD : ¬ ('D' = 'E') := by decide
  unfold boostpulse_open
  simp only [hfd, if_true, hread, hm4, if_false]
  rcases boostpulse_select_cases cm (get_scaling_governor k g 80).2.1
    (get_scaling_governor k g 80).2.2 with h | h | h | h | h
  · simp only [h.2.2]
    split_ifs <;> simp [alog, open_errors, herr, hD, hnn, not_lt.mpr hnn]
    omega
  · simp only [h.2.2]
    split_ifs <;> simp_all [alog, open_errors, herr, hD]
    omega
  · simp only [h.2.2.2]
    split_ifs <;> simp [alog, open_errors, herr, hD, hnn, not_lt.mpr hnn]
    omega
  · simp only [h.2.2.2]
    split_ifs <;> simp_all [alog, open_errors, herr, hD]
    omega
  · simp only [h.2.2]
    split_ifs <;> simp_all [alog, open_errors, herr, hD]
    omega

/-- When the governor cannot be read, `boostpulse_open` on an absent handle
leaves the handle as it was and sets `boostpulse_warned`, without an "Error
opening boostpulse" line. -/
theorem boostpulse_open_read_failure (cm : cm_power_module) (g : List Char) (k : Kernel)
    (hfd : cm.boostpulse_fd < 0) (hread : (get_scaling_governor k g 80).1 = -1) :
    (boostpulse_open cm g k).1 = cm.boostpulse_fd ∧
    open_errors (boostpulse_open cm g k).2.2.trace = open_errors k.trace ∧
    (boostpulse_open cm g k).2.1.boostpulse_warned = 1 := by
  obtain ⟨-, -, -, -, herr, -, -⟩ := get_scaling_governor_spec k g 80
  have hmsg : ¬ ("Can't read scaling governor." = "Error opening boostpulse") := by decide
  have hm1 : (-1 : Int) < 0 := by decide
  unfold boostpulse_open
  simp only [hfd, if_true, hread, hm1, alog, open_errors, hmsg, and_false, if_false,
    Nat.zero_add, herr, and_self]

theorem toString_int_length (n : Int) (h1 : -2 ^ 31 ≤ n) (h2 : n < 2 ^ 31) :
    (toString n).data.length ≤ 11 := by
  cases n with
  | ofNat m =>
    have hm : m < 10 ^ 10 := by
      have : (m : Int) < 2 ^ 31 := h2
      omega
    have := Nat.repr_length m 10 (by norm_num) hm
    show (Nat.repr m).data.length ≤ 11
    have h3 : (Nat.repr m).length = (Nat.repr m).data.length := rfl
    omega
  | negSucc m =>
    have hm : m + 1 < 10 ^ 10 := by
      have : -2 ^ 31 ≤ Int.negSucc m := h1
      rw [Int.negSucc_eq] at this
      omega
    have := Nat.repr_length (m + 1) 10 (by norm_num) hm
    show ("-" ++ Nat.repr (m + 1)).data.length ≤ 11
    have h3 : (Nat.repr (m + 1)).length = (Nat.repr (m + 1)).data.length := rfl
    simp only [String.data_append, List.length_append, List.length_singleton]
    omega

/-- For a 32-bit `int`, the 80-byte buffer of `cm_power_hint` holds all of the
decimal text. -/
theorem snprintf_d_int (n : Int) (h1 : -2 ^ 31 ≤ n) (h2 : n < 2 ^ 31) :
    snprintf_d 80 n = (toString n).data := by
  unfold snprintf_d
  apply List.take_of_length_le
  have := toString_int_length n h1 h2
  omega

/-- Passing an `int` as the pointer argument and casting it back gives the same
`int`, and only 0 becomes `NULL`. -/
theorem int_of_ptr_of_int (n : Int) (h1 : -2 ^ 31 ≤ n) (h2 : n < 2 ^ 31) :
    int_of_ptr (ptr_of_int n) = n ∧ (n ≠ 0 → ptr_of_int n ≠ 0) := by
  unfold int_of_ptr ptr_of_int
  have hp : (0:Int) ≤ n % 2 ^ 32 := Int.emod_nonneg _ (by norm_num)
  have hlt : n % 2 ^ 32 < 2 ^ 32 := Int.emod_lt_of_pos _ (by norm_num)
  have hmod : (n % 2 ^ 32).toNat % 2 ^ 32 = (n % 2 ^ 32).toNat := by
    apply Nat.mod_eq_of_lt
    omega
  rw [hmod]
  have hcast : (((n % 2 ^ 32).toNat : Nat) : Int) = n % 2 ^ 32 := Int.toNat_of_nonneg hp
  constructor
  · split_ifs with h <;> omega
  · intro hn h0
    omega

/-- The one `write` of the boost case: when `boostpulse_open` yields a handle,
the formatted duration goes to that handle, whatever the outcome of the write. -/
theorem boost_case_writes (cm : cm_power_module) (data : Nat) (g : List Char) (k : Kernel)
    (hb : 0 ≤ (boostpulse_open cm g k).1) :
    file_writes (boost_case cm data g k).2.trace
      = ((boostpulse_open cm g k).1,
         ((boostpulse_open cm g k).2.2.fds.lookup (boostpulse_open cm g k).1).map Prod.fst,
         snprintf_d 80 (if data ≠ 0 then int_of_ptr data else 1))
        :: file_writes k.trace := by
  obtain ⟨hw, -, -, -, -⟩ := boostpulse_open_frame cm g k
  have hret := boostpulse_open_ret cm g k
  unfold boost_case
  simp only [ge_iff_le, hb, if_true, hret, sys_write]
  split_ifs <;> simp only [sys_close, alog, file_writes, hw]

theorem lookup_after_close (k : Kernel) (fd : Int) :
    (sys_close k fd).fds.lookup fd = none := by
  unfold sys_close
  rw [List.lookup_eq_none_iff]
  intro p hp
  have := (List.mem_filter.mp hp).2
  simp only [ne_eq, decide_not, Bool.not_eq_true', decide_eq_false_iff_not] at this
  simp only [bne_iff_ne, ne_eq]
  exact fun h => this h.symm

/-- The boost case when `boostpulse_open` yields a handle and the write on it is
refused: the handle is closed, and the module is left with `boostpulse_fd = -1`
and `boostpulse_warned = 0`. -/
theorem boost_case_write_failure (cm : cm_power_module) (data : Nat) (g : List Char)
    (k : Kernel) (hb : 0 ≤ (boostpulse_open cm g k).1)
    (hw : write_ok (boostpulse_open cm g k).2.2 (boostpulse_open cm g k).1 = false) :
    (boost_case cm data g k).1 = { boostpulse_fd := -1, boostpulse_warned := 0 } ∧
    (∃ t, (boost_case cm data g k).2.trace
      = Event.ev_close (boostpulse_open cm g k).1 :: t) ∧
    (boost_case cm data g k).2.fds.lookup (boostpulse_open cm g k).1 = none := by
  have hret := boostpulse_open_ret cm g k
  have hm1 : (-1 : Int) < 0 := by decide
  have hc := lookup_after_close
    (alog (sys_write (boostpulse_open cm g k).2.2 (boostpulse_open cm g k).1
      (snprintf_d 80 (if data ≠ 0 then int_of_ptr data else 1))).2 'E'
      "Error writing to boostpulse") (boostpulse_open cm g k).1
  unfold boost_case
  simp only [ge_iff_le, hb, if_true, hret]
  simp only [sys_write, hw, Bool.false_eq_true, if_false, hm1, if_true] at hc ⊢
  refine ⟨trivial, ⟨_, rfl⟩, hc⟩

/-- The boost case when `boostpulse_open` yields a handle and the write on it is
accepted: the module is as `boostpulse_open` left it and the descriptor table is
untouched. -/
theorem boost_case_write_success (cm : cm_power_module) (data : Nat) (g : List Char)
    (k : Kernel) (hb : 0 ≤ (boostpulse_open cm g k).1)
    (hw : write_ok (boostpulse_open cm g k).2.2 (boostpulse_open cm g k).1 = true) :
    (boost_case cm data g k).1 = (boostpulse_open cm g k).2.1 ∧
    (boost_case cm data g k).2.fds = (boostpulse_open cm g k).2.2.fds := by
  have hret := boostpulse_open_ret cm g k
  have h0 : ∀ l : List Char, ¬ ((l.length : Int) < 0) :=
    fun l => not_lt.mpr (Int.ofNat_nonneg _)
  unfold boost_case
  simp only [ge_iff_le, hb, if_true, hret, sys_write, hw, h0, if_false, and_self]

/-- The boost case when `boostpulse_open` yields no handle: nothing more happens. -/
theorem boost_case_no_handle (cm : cm_power_module) (data : Nat) (g : List Char)
    (k : Kernel) (hb : (boostpulse_open cm g k).1 < 0) :
    boost_case cm data g k = ((boostpulse_open cm g k).2.1, (boostpulse_open cm g k).2.2) := by
  unfold boost_case
  simp only [ge_iff_le, not_le.mpr hb, if_false]

theorem handle_ok_iff (s : cm_power_module × Kernel) :
    handle_ok s = true ↔
      s.1.boostpulse_fd = -1 ∨
      (0 ≤ s.1.boostpulse_fd ∧
        (s.2.fds.lookup s.1.boostpulse_fd = some (BOOSTPULSE_ONDEMAND, OFlag.O_WRONLY) ∨
         s.2.fds.lookup s.1.boostpulse_fd
           = some (BOOSTPULSE_INTERACTIVE, OFlag.O_WRONLY))) := by
  unfold handle_ok
  simp only [Bool.or_eq_true, Bool.and_eq_true, decide_eq_true_eq, beq_iff_eq]

theorem boost_case_cm_kind (cm : cm_power_module) (hint : power_hint_t) (data : Nat)
    (g : List Char) (k : Kernel) :
    cm_power_hint cm hint data g k = (cm, k) ∨
    cm_power_hint cm hint data g k = boost_case cm data g k := by
  cases hint with
  | POWER_HINT_VSYNC => left; rfl
  | POWER_HINT_INTERACTION => right; rfl
  | POWER_HINT_CPU_BOOST => right; rfl
  | other c => left; rfl

/-- The boost case keeps the handle invariant. -/
theorem boost_case_handle_ok (cm : cm_power_module) (data : Nat) (g : List Char) (k : Kernel)
    (h : handle_ok (cm, k) = true) : handle_ok (boost_case cm data g k) = true := by
  rw [handle_ok_iff] at h ⊢
  obtain ⟨-, -, hkeep, hnew, hneg⟩ := boostpulse_open_frame cm g k
  have hret := boostpulse_open_ret cm g k
  by_cases hb : 0 ≤ (boostpulse_open cm g k).1
  · cases hw : write_ok (boostpulse_open cm g k).2.2 (boostpulse_open cm g k).1 with
    | false =>
      left
      rw [(boost_case_write_failure cm data g k hb hw).1]
    | true =>
      right
      obtain ⟨e1, e2⟩ := boost_case_write_success cm data g k hb hw
      rw [e1, e2, hret]
      refine ⟨hb, ?_⟩
      rcases h with h | ⟨h0, h⟩
      · have hfd : cm.boostpulse_fd < 0 := by
          have : cm.boostpulse_fd = -1 := h
          omega
        rcases (hnew hfd hb).2 with hx | hx
        · exact Or.inl hx.2
        · exact Or.inr hx.2.2
      · have hc : boostpulse_open cm g k = (cm.boostpulse_fd, cm, k) := by
          simp [boostpulse_open, not_lt.mpr h0]
        simp only [hc]
        exact h
  · have hb2 : (boostpulse_open cm g k).1 < 0 := not_le.mp hb
    left
    rw [boost_case_no_handle cm data g k hb2]
    show (boostpulse_open cm g k).2.1.boostpulse_fd = -1
    rw [hret]
    rcases h with h | ⟨h0, -⟩
    · have h1 : cm.boostpulse_fd = -1 := h
      have hfd : cm.boostpulse_fd < 0 := by omega
      rcases hneg hfd hb2 with hx | hx
      · rw [hx, h1]
      · exact hx
    · have hc : boostpulse_open cm g k = (cm.boostpulse_fd, cm, k) := by
        simp [boostpulse_open, not_lt.mpr h0]
      rw [hc] at hb2
      have h1 : cm.boostpulse_fd < 0 := hb2
      have h2 : 0 ≤ cm.boostpulse_fd := h0
      omega

/-- Every action keeps the handle invariant. -/
theorem step_handle_ok (s : cm_power_module × Kernel) (a : Action)
    (h : handle_ok s = true) : handle_ok (step s a) = true := by
  cases a with
  | init g =>
    have hf : (cm_power_init g s.2).fds = s.2.fds := by
      unfold cm_power_init
      split_ifs
      · exact (sysfs_write_effect _ _ _).1
      · rfl
    rw [handle_ok_iff] at h ⊢
    simpa only [step, hf] using h
  | set_interactive o g =>
    have hf : (cm_power_set_interactive o g s.2).fds = s.2.fds := by
      unfold cm_power_set_interactive
      by_cases hg : strncmp g "ondemand".data 8 = 0
      · rw [if_pos hg]
        exact (sysfs_write_effect _ _ _).1
      · rw [if_neg hg]
        rfl
    rw [handle_ok_iff] at h ⊢
    simpa only [step, hf] using h
  | hint hk d g =>
    show handle_ok (cm_power_hint s.1 hk d g s.2) = true
    rcases boost_case_cm_kind s.1 hk d g s.2 with e | e
    · rw [e]
      exact h
    · rw [e]
      exact boost_case_handle_ok s.1 d g s.2 h
  | env fs =>
    rw [handle_ok_iff] at h ⊢
    exact h

/-- An action that takes the handle from present to absent leaves the module at
`boostpulse_fd = -1`, `boostpulse_warned = 0`. -/
theorem step_present_to_absent (s : cm_power_module × Kernel) (a : Action)
    (h0 : 0 ≤ s.1.boostpulse_fd) (h1 : (step s a).1.boostpulse_fd < 0) :
    (step s a).1 = { boostpulse_fd := -1, boostpulse_warned := 0 } := by
  have hc : ∀ g, boostpulse_open s.1 g s.2 = (s.1.boostpulse_fd, s.1, s.2) := by
    intro g
    simp [boostpulse_open, not_lt.mpr h0]
  cases a with
  | init g => exact absurd h1 (not_lt.mpr h0)
  | set_interactive o g => exact absurd h1 (not_lt.mpr h0)
  | env fs => exact absurd h1 (not_lt.mpr h0)
  | hint hk d g =>
    have h2 : (cm_power_hint s.1 hk d g s.2).1.boostpulse_fd < 0 := h1
    show (cm_power_hint s.1 hk d g s.2).1 = _
    rcases boost_case_cm_kind s.1 hk d g s.2 with e | e
    · rw [e] at h2
      exact absurd h2 (not_lt.mpr h0)
    · rw [e] at h2 ⊢
      have hb : 0 ≤ (boostpulse_open s.1 g s.2).1 := by rw [hc]; exact h0
      cases hw : write_ok (boostpulse_open s.1 g s.2).2.2 (boostpulse_open s.1 g s.2).1 with
      | false => exact (boost_case_write_failure s.1 d g s.2 hb hw).1
      | true =>
        rw [(boost_case_write_success s.1 d g s.2 hb hw).1, hc] at h2
        exact absurd h2 (not_lt.mpr h0)

/-! ## The claims -/

/-- C4. When the cached handle is present (`boostpulse_fd >= 0`), `boostpulse_open`
returns that handle and leaves the module and the kernel, trace included, exactly
as they were, so it reads no governor file and opens no path; any number of
further calls does the same; and the state left by an open that yielded a handle
is such a state. -/
theorem boostpulse_open_cached_idempotent (cm : cm_power_module)
    (h : 0 ≤ cm.boostpulse_fd) :
    (∀ g k, boostpulse_open cm g k = (cm.boostpulse_fd, cm, k)) ∧
    (∀ gs k, boostpulse_open_seq (cm, k) gs = (cm, k)) ∧
    (∀ cm0 g0 k0, 0 ≤ (boostpulse_open cm0 g0 k0).1 →
      ∀ g k, boostpulse_open (boostpulse_open cm0 g0 k0).2.1 g k
        = ((boostpulse_open cm0 g0 k0).1, (boostpulse_open cm0 g0 k0).2.1, k)) := by
  have h1 : ∀ c : cm_power_module, 0 ≤ c.boostpulse_fd →
      ∀ g k, boostpulse_open c g k = (c.boostpulse_fd, c, k) := by
    intro c hc g k
    simp [boostpulse_open, not_lt.mpr hc]
  refine ⟨h1 cm h, ?_, ?_⟩
  · intro gs k
    unfold boostpulse_open_seq
    induction gs with
    | nil => rfl
    | cons g t ih => simp only [List.foldl_cons, h1 cm h]; exact ih
  · intro cm0 g0 k0 hb g k
    have hfd := boostpulse_open_ret cm0 g0 k0
    rw [h1 _ (hfd ▸ hb), hfd]

/-- C4, evaluated: with handle 3 cached, two calls on a tree whose governor is
ondemand leave everything as it was. -/
theorem boostpulse_open_cached_idempotent_witness :
    (0 : Int) ≤ (cm_power_module.mk 3 0).boostpulse_fd ∧
    boostpulse_open_seq (cm_power_module.mk 3 0, boot (sysfs_files "ondemand\n".data true))
        [[], []]
      = (cm_power_module.mk 3 0, boot (sysfs_files "ondemand\n".data true)) :=
  ⟨by decide,
   (boostpulse_open_cached_idempotent (cm_power_module.mk 3 0) (by decide)).2.1 _ _⟩

/-- C8. A hint of kind `POWER_HINT_VSYNC`, or of any kind other than
`POWER_HINT_INTERACTION` and `POWER_HINT_CPU_BOOST`, leaves the module
(`boostpulse_fd`, `boostpulse_warned`) and the kernel, trace included, exactly as
they were: no open, read, write or close. -/
theorem cm_power_hint_other_kinds_noop (cm : cm_power_module) (hint : power_hint_t)
    (data : Nat) (g : List Char) (k : Kernel)
    (h1 : hint ≠ power_hint_t.POWER_HINT_INTERACTION)
    (h2 : hint ≠ power_hint_t.POWER_HINT_CPU_BOOST) :
    cm_power_hint cm hint data g k = (cm, k) := by
  cases hint with
  | POWER_HINT_VSYNC => rfl
  | POWER_HINT_INTERACTION => exact absurd rfl h1
  | POWER_HINT_CPU_BOOST => exact absurd rfl h2
  | other c => rfl

/-- C8, evaluated at `POWER_HINT_VSYNC` with payload 7 on a freshly booted tree. -/
theorem cm_power_hint_other_kinds_noop_witness :
    cm_power_hint HAL_MODULE_INFO_SYM power_hint_t.POWER_HINT_VSYNC 7 []
        (boot (sysfs_files "ondemand\n".data true))
      = (HAL_MODULE_INFO_SYM, boot (sysfs_files "ondemand\n".data true)) :=
  cm_power_hint_other_kinds_noop _ _ _ _ _ (by decide) (by decide)

/-- C3, as stated, fails: the governor name `ondemandx` is neither `ondemand` nor
`interactive`, yet with the handle absent `boostpulse_open` opens the ondemand
boost path and returns the usable handle 3, because the comparison is
`strncmp(governor, "ondemand", 8)`. -/
theorem boostpulse_open_ondemandx_opens :
    cstr (get_scaling_governor (boot (sysfs_files "ondemandx\n".data true)) [] 80).2.1
      = "ondemandx".data ∧
    "ondemandx".data ≠ "ondemand".data ∧ "ondemandx".data ≠ "interactive".data ∧
    HAL_MODULE_INFO_SYM.boostpulse_fd < 0 ∧
    (boostpulse_open HAL_MODULE_INFO_SYM [] (boot (sysfs_files "ondemandx\n".data true))).1 = 3 ∧
    (boostpulse_open HAL_MODULE_INFO_SYM []
        (boot (sysfs_files "ondemandx\n".data true))).2.1.boostpulse_fd = 3 ∧
    opened_paths (boostpulse_open HAL_MODULE_INFO_SYM []
        (boot (sysfs_files "ondemandx\n".data true))).2.2.trace
      = [BOOSTPULSE_ONDEMAND, SCALING_GOVERNOR_PATH] := by
  decide

/-- C3, amended. When the handle is absent and the governor name just read starts
with neither `ondemand` nor `interactive`, `boostpulse_open` opens no path but
the governor file, leaves `boostpulse_fd` and the descriptor table as they were
and returns that negative value. -/
theorem boostpulse_open_unknown_governor (cm : cm_power_module) (g : List Char) (k : Kernel)
    (hfd : cm.boostpulse_fd < 0)
    (hread : (get_scaling_governor k g 80).1 = 0)
    (ho : ¬ "ondemand".data <+: cstr (get_scaling_governor k g 80).2.1)
    (hi : ¬ "interactive".data <+: cstr (get_scaling_governor k g 80).2.1) :
    (boostpulse_open cm g k).1 = cm.boostpulse_fd ∧
    (boostpulse_open cm g k).1 < 0 ∧
    (boostpulse_open cm g k).2.1.boostpulse_fd = cm.boostpulse_fd ∧
    opened_paths (boostpulse_open cm g k).2.2.trace
      = SCALING_GOVERNOR_PATH :: opened_paths k.trace ∧
    (boostpulse_open cm g k).2.2.fds = k.fds := by
  obtain ⟨hfds, -, hop, -, -, -, -⟩ := get_scaling_governor_spec k g 80
  have hsel : boostpulse_select cm (get_scaling_governor k g 80).2.1
      (get_scaling_governor k g 80).2.2 = (cm, (get_scaling_governor k g 80).2.2) := by
    rcases boostpulse_select_cases cm (get_scaling_governor k g 80).2.1
      (get_scaling_governor k g 80).2.2 with h | h | h | h | h
    · exact absurd h.1 ho
    · exact absurd h.1 ho
    · exact absurd h.2.1 hi
    · exact absurd h.2.1 hi
    · exact h.2.2
  have h0 : ¬ ((0 : Int) < 0) := by decide
  have hpos : ¬ cm.boostpulse_fd > 0 := by omega
  unfold boostpulse_open
  simp only [hfd, if_true, hread, h0, if_false, hsel, true_and, hpos]
  split <;> simp [alog, opened_paths, hop, hfds, hfd]

/-- C3, amended, evaluated on governor `performance`. -/
theorem boostpulse_open_unknown_governor_witness :
    (boostpulse_open HAL_MODULE_INFO_SYM []
        (boot (sysfs_files "performance\n".data true))).1 = -1 ∧
    opened_paths (boostpulse_open HAL_MODULE_INFO_SYM []
        (boot (sysfs_files "performance\n".data true))).2.2.trace
      = [SCALING_GOVERNOR_PATH] := by
  have h := boostpulse_open_unknown_governor HAL_MODULE_INFO_SYM []
    (boot (sysfs_files "performance\n".data true)) (by decide) (by decide) (by decide)
    (by decide)
  exact ⟨h.1, h.2.2.2.1⟩

/-- C6, as stated, fails on a content with a NUL byte: from the six bytes
`ab\n\0cd` a successful `get_scaling_governor` yields the string `ab`, while
the content has no trailing line feed or carriage return to remove. -/
theorem get_scaling_governor_nul_content :
    ['a', 'b', '\n', '\x00', 'c', 'd'].length ≤ 79 ∧
    (get_scaling_governor (boot (sysfs_files ['a', 'b', '\n', '\x00', 'c', 'd'] true))
        [] 80).1 = 0 ∧
    cstr (get_scaling_governor (boot (sysfs_files ['a', 'b', '\n', '\x00', 'c', 'd'] true))
        [] 80).2.1 = ['a', 'b'] ∧
    rstrip_crlf ['a', 'b', '\n', '\x00', 'c', 'd'] = ['a', 'b', '\n', '\x00', 'c', 'd'] ∧
    cstr (get_scaling_governor (boot (sysfs_files ['a', 'b', '\n', '\x00', 'c', 'd'] true))
        [] 80).2.1 ≠ rstrip_crlf ['a', 'b', '\n', '\x00', 'c', 'd'] := by
  decide

/-- C6, amended. When the governor file can be opened and read,
`get_scaling_governor(governor, 80)` succeeds and the string it yields is the
first 79 bytes of the content, cut at the first NUL, with the maximal trailing
run of line feeds and carriage returns removed and nothing else changed; it is a
start of the content and does not end in a line feed or carriage return; and for
a content of at most 79 bytes without NUL it is the content without that
trailing run. -/
theorem get_scaling_governor_trims (k : Kernel) (buf : List Char) (f : File)
    (hf : k.files.lookup SCALING_GOVERNOR_PATH = some f)
    (hopen : f.rd_open = true) (hrd : f.rd_ok = true) :
    (get_scaling_governor k buf 80).1 = 0 ∧
    cstr (get_scaling_governor k buf 80).2.1 = rstrip_crlf (cstr (f.content.take 79)) ∧
    cstr (get_scaling_governor k buf 80).2.1 <+: f.content ∧
    (∀ c, (cstr (get_scaling_governor k buf 80).2.1).getLast? = some c →
      c ≠ '\n' ∧ c ≠ '\r') ∧
    (f.content.length ≤ 79 → (∀ c ∈ f.content, c ≠ '\x00') →
      cstr (get_scaling_governor k buf 80).2.1 = rstrip_crlf f.content ∧
      ∃ t, f.content = cstr (get_scaling_governor k buf 80).2.1 ++ t ∧
        ∀ c ∈ t, c = '\n' ∨ c = '\r') := by
  have hs := sysfs_read_succeeds k SCALING_GOVERNOR_PATH buf 80 f hf hopen hrd
  have hret : (get_scaling_governor k buf 80).1 = 0 := by
    have h0 : ¬ ((0 : Int) = -1) := by decide
    simp only [get_scaling_governor, hs, h0, if_false]
  obtain ⟨-, -, -, -, -, -, hr⟩ := get_scaling_governor_spec k buf 80
  have heq : cstr (get_scaling_governor k buf 80).2.1
      = rstrip_crlf (cstr (f.content.take 79)) := by
    rcases hr with hr | ⟨-, f2, hf2, hr⟩
    · rw [hret] at hr
      exact absurd hr (by decide)
    · rw [hf] at hf2
      cases hf2
      exact hr
  obtain ⟨⟨t, ht, htc⟩, hlast⟩ := rstrip_crlf_spec (cstr (f.content.take 79))
  refine ⟨hret, heq, ?_, ?_, ?_⟩
  · rw [heq]
    have h1 : rstrip_crlf (cstr (f.content.take 79)) <+: cstr (f.content.take 79) :=
      ⟨t, ht.symm⟩
    exact (h1.trans (List.takeWhile_prefix _)).trans (List.take_prefix _ _)
  · rw [heq]
    exact hlast
  · intro hlen hnul
    have h2 : cstr (f.content.take 79) = f.content := by
      rw [List.take_of_length_le hlen]
      exact cstr_of_no_nul _ hnul
    rw [heq, h2]
    obtain ⟨⟨t2, ht2, htc2⟩, -⟩ := rstrip_crlf_spec f.content
    exact ⟨rfl, t2, ht2, htc2⟩

/-- C6, amended, evaluated: the content `interactive\n` yields `interactive`. -/
theorem get_scaling_governor_trims_witness :
    (get_scaling_governor (boot (sysfs_files "interactive\n".data true)) [] 80).1 = 0 ∧
    cstr (get_scaling_governor (boot (sysfs_files "interactive\n".data true)) [] 80).2.1
      = "interactive".data := by
  have h := get_scaling_governor_trims (boot (sysfs_files "interactive\n".data true)) []
    ⟨"interactive\n".data, true, true, false, false⟩ (by decide) rfl rfl
  refine ⟨h.1, ?_⟩
  rw [h.2.1]
  decide

/-- C2, as stated, fails at payload 0: the pointer argument for the integer 0 is
`NULL`, the test `data != NULL` keeps the default duration, and `cm_power_hint`
writes `1` to the handle, not the decimal text `0`. -/
theorem cm_power_hint_payload_zero_writes_one :
    0 ≤ (boostpulse_open HAL_MODULE_INFO_SYM []
      (boot (sysfs_files "ondemand\n".data true))).1 ∧
    ptr_of_int 0 = 0 ∧
    file_writes (cm_power_hint HAL_MODULE_INFO_SYM power_hint_t.POWER_HINT_CPU_BOOST
        (ptr_of_int 0) [] (boot (sysfs_files "ondemand\n".data true))).2.trace
      = [(3, some BOOSTPULSE_ONDEMAND, ['1'])] ∧
    (toString (0 : Int)).data = ['0'] ∧
    ['1'] ≠ (toString (0 : Int)).data := by
  decide

/-- C2, amended. For a hint of kind `POWER_HINT_INTERACTION` or
`POWER_HINT_CPU_BOOST` on which `boostpulse_open` yields a handle, `cm_power_hint`
makes exactly one `write`, to that handle: for every nonzero `int` payload `n` the
bytes are the decimal text of `n`, and for the payload `NULL` (no payload, or the
integer 0) they are `1`. -/
theorem cm_power_hint_writes_duration (cm : cm_power_module) (hint : power_hint_t)
    (g : List Char) (k : Kernel)
    (hk : hint = power_hint_t.POWER_HINT_INTERACTION ∨
      hint = power_hint_t.POWER_HINT_CPU_BOOST)
    (hb : 0 ≤ (boostpulse_open cm g k).1) :
    (∀ n : Int, n ≠ 0 → -2 ^ 31 ≤ n → n < 2 ^ 31 →
      file_writes (cm_power_hint cm hint (ptr_of_int n) g k).2.trace
        = ((boostpulse_open cm g k).1,
           ((boostpulse_open cm g k).2.2.fds.lookup (boostpulse_open cm g k).1).map Prod.fst,
           (toString n).data) :: file_writes k.trace) ∧
    file_writes (cm_power_hint cm hint 0 g k).2.trace
      = ((boostpulse_open cm g k).1,
         ((boostpulse_open cm g k).2.2.fds.lookup (boostpulse_open cm g k).1).map Prod.fst,
         "1".data) :: file_writes k.trace := by
  have hcase : ∀ d, cm_power_hint cm hint d g k = boost_case cm d g k := by
    intro d
    rcases hk with hk | hk <;> rw [hk] <;> rfl
  constructor
  · intro n hn h1 h2
    obtain ⟨hrt, hnz⟩ := int_of_ptr_of_int n h1 h2
    rw [hcase, boost_case_writes cm _ g k hb, if_pos (hnz hn), hrt, snprintf_d_int n h1 h2]
  · rw [hcase, boost_case_writes cm _ g k hb]
    rfl

/-- C2, amended, evaluated: payload 5 with `POWER_HINT_CPU_BOOST` writes `5`, and
`POWER_HINT_INTERACTION` without payload writes `1`, both on handle 3 opened on
the ondemand boost path. -/
theorem cm_power_hint_writes_duration_witness :
    file_writes (cm_power_hint HAL_MODULE_INFO_SYM power_hint_t.POWER_HINT_CPU_BOOST
        (ptr_of_int 5) [] (boot (sysfs_files "ondemand\n".data true))).2.trace
      = [(3, some BOOSTPULSE_ONDEMAND, ['5'])] ∧
    file_writes (cm_power_hint HAL_MODULE_INFO_SYM power_hint_t.POWER_HINT_INTERACTION
        0 [] (boot (sysfs_files "ondemand\n".data true))).2.trace
      = [(3, some BOOSTPULSE_ONDEMAND, ['1'])] := by
  have h1 := (cm_power_hint_writes_duration HAL_MODULE_INFO_SYM
    power_hint_t.POWER_HINT_CPU_BOOST [] (boot (sysfs_files "ondemand\n".data true))
    (Or.inr rfl) (by decide)).1 5 (by decide) (by decide) (by decide)
  have h2 := (cm_power_hint_writes_duration HAL_MODULE_INFO_SYM
    power_hint_t.POWER_HINT_INTERACTION [] (boot (sysfs_files "ondemand\n".data true))
    (Or.inl rfl) (by decide)).2
  refine ⟨h1.trans (by decide), h2.trans (by decide)⟩

/-- C5. When a hint of kind `POWER_HINT_INTERACTION` or `POWER_HINT_CPU_BOOST`
gets a handle from `boostpulse_open` and the write on it fails, `cm_power_hint`
closes that handle (the last call is `close` on it and the descriptor is gone
from the table) and ends with `boostpulse_fd = -1` and `boostpulse_warned = 0`;
the next `boostpulse_open`, on any kernel, then opens the governor file again
and, if the governor is read and no handle results, logs "Error opening
boostpulse" once more. -/
theorem cm_power_hint_write_failure_resets (cm : cm_power_module) (hint : power_hint_t)
    (data : Nat) (g : List Char) (k : Kernel)
    (hk : hint = power_hint_t.POWER_HINT_INTERACTION ∨
      hint = power_hint_t.POWER_HINT_CPU_BOOST)
    (hb : 0 ≤ (boostpulse_open cm g k).1)
    (hw : write_ok (boostpulse_open cm g k).2.2 (boostpulse_open cm g k).1 = false) :
    (cm_power_hint cm hint data g k).1 = { boostpulse_fd := -1, boostpulse_warned := 0 } ∧
    (∃ t, (cm_power_hint cm hint data g k).2.trace
      = Event.ev_close (boostpulse_open cm g k).1 :: t) ∧
    (cm_power_hint cm hint data g k).2.fds.lookup (boostpulse_open cm g k).1 = none ∧
    (∀ g2 k2,
      (∃ pre r, (boostpulse_open (cm_power_hint cm hint data g k).1 g2 k2).2.2.trace
        = pre ++ Event.ev_open SCALING_GOVERNOR_PATH OFlag.O_RDONLY r :: k2.trace) ∧
      ((get_scaling_governor k2 g2 80).1 = 0 →
        (boostpulse_open (cm_power_hint cm hint data g k).1 g2 k2).1 < 0 →
        open_errors (boostpulse_open (cm_power_hint cm hint data g k).1 g2 k2).2.2.trace
          = open_errors k2.trace + 1 ∧
        ∃ t, (boostpulse_open (cm_power_hint cm hint data g k).1 g2 k2).2.2.trace
          = Event.ev_log 'E' "Error opening boostpulse" :: t)) := by
  have hcase : cm_power_hint cm hint data g k = boost_case cm data g k := by
    rcases hk with hk | hk <;> rw [hk] <;> rfl
  obtain ⟨h1, h2, h3⟩ := boost_case_write_failure cm data g k hb hw
  rw [hcase]
  refine ⟨h1, h2, h3, ?_⟩
  intro g2 k2
  rw [h1]
  have hneg : (cm_power_module.mk (-1) 0).boostpulse_fd < 0 := by decide
  refine ⟨boostpulse_open_rereads _ g2 k2 hneg, ?_⟩
  intro hread hfail
  obtain ⟨hl, -, -⟩ := boostpulse_open_logging _ g2 k2 hneg hread
  obtain ⟨e1, e2, -⟩ := hl hfail rfl
  exact ⟨e1, e2⟩

/-- C5, evaluated: the ondemand boost file opens but refuses the write; the hint
leaves the module at (-1, 0) with descriptor 3 closed, and a second open on a
tree without the ondemand directory logs the open error. -/
theorem cm_power_hint_write_failure_resets_witness :
    (cm_power_hint HAL_MODULE_INFO_SYM power_hint_t.POWER_HINT_INTERACTION 0 []
        (boot (sysfs_files "ondemand\n".data false))).1
      = { boostpulse_fd := -1, boostpulse_warned := 0 } ∧
    (cm_power_hint HAL_MODULE_INFO_SYM power_hint_t.POWER_HINT_INTERACTION 0 []
        (boot (sysfs_files "ondemand\n".data false))).2.fds.lookup 3 = none ∧
    open_errors (boostpulse_open
        (cm_power_hint HAL_MODULE_INFO_SYM power_hint_t.POWER_HINT_INTERACTION 0 []
          (boot (sysfs_files "ondemand\n".data false))).1 []
        (boot (sysfs_files_no_ondemand "ondemand\n".data))).2.2.trace = 1 := by
  have h := cm_power_hint_write_failure_resets HAL_MODULE_INFO_SYM
    power_hint_t.POWER_HINT_INTERACTION 0 [] (boot (sysfs_files "ondemand\n".data false))
    (Or.inl rfl) (by decide) (by decide)
  refine ⟨h.1, h.2.2.1, ?_⟩
  exact ((h.2.2.2 [] (boot (sysfs_files_no_ondemand "ondemand\n".data))).2
    (by decide) (by decide)).1

/-- C1, evaluated where the code departs from it. `cm_power_set_interactive`
never opens the governor file: the only path it can open is the sampling-rate
file. On a tree whose governor reads exactly `ondemand`, with the local array
holding zero bytes, it writes nothing; on a tree whose governor reads
`interactive`, with the local array holding the bytes `ondemand`, it writes
`50000` to the sampling-rate path. -/
theorem cm_power_set_interactive_ignores_governor_file :
    (∀ (on_ : Int) (g : List Char) (k : Kernel),
      opened_paths (cm_power_set_interactive on_ g k).trace = opened_paths k.trace ∨
      opened_paths (cm_power_set_interactive on_ g k).trace
        = SAMPLING_RATE_ONDEMAND :: opened_paths k.trace) ∧
    cstr (get_scaling_governor (boot (sysfs_files "ondemand\n".data true)) [] 80).2.1
      = "ondemand".data ∧
    file_writes (cm_power_set_interactive 1 (List.replicate 80 '\x00')
      (boot (sysfs_files "ondemand\n".data true))).trace = [] ∧
    cstr (get_scaling_governor (boot (sysfs_files "interactive\n".data true)) [] 80).2.1
      = "interactive".data ∧
    file_writes (cm_power_set_interactive 1 ("ondemand".data ++ List.replicate 72 '\x00')
      (boot (sysfs_files "interactive\n".data true))).trace
      = [(3, some SAMPLING_RATE_ONDEMAND, "50000".data)] := by
  refine ⟨?_, by decide, by decide, by decide, by decide⟩
  intro on_ g k
  unfold cm_power_set_interactive
  by_cases hg : strncmp g "ondemand".data 8 = 0
  · right
    rw [if_pos hg]
    exact (sysfs_write_effect k _ _).2.2.2
  · left
    rw [if_neg hg]
    rfl

/-- C7, evaluated where the code departs from it. `cm_power_init` never opens the
governor file: the only path it can open is the sampling-rate file. On a tree
whose governor reads `ondemand` and whose sampling-rate file opens for writing,
with the local array holding zero bytes, `cm_power_init` writes nothing, while
`cm_power_set_interactive(1)` on the same tree, with its own local array holding
the bytes `ondemand`, writes `50000`; and on a tree whose governor reads
`interactive`, with the local array holding the bytes `ondemand`,
`cm_power_init` writes `50000`. -/
theorem cm_power_init_ignores_governor_file :
    (∀ (g : List Char) (k : Kernel),
      opened_paths (cm_power_init g k).trace = opened_paths k.trace ∨
      opened_paths (cm_power_init g k).trace
        = SAMPLING_RATE_ONDEMAND :: opened_paths k.trace) ∧
    cstr (get_scaling_governor (boot (sysfs_files "ondemand\n".data true)) [] 80).2.1
      = "ondemand".data ∧
    0 ≤ (sys_open (boot (sysfs_files "ondemand\n".data true)) SAMPLING_RATE_ONDEMAND
      OFlag.O_WRONLY).1 ∧
    file_writes (cm_power_init (List.replicate 80 '\x00')
      (boot (sysfs_files "ondemand\n".data true))).trace = [] ∧
    file_writes (cm_power_set_interactive 1 ("ondemand".data ++ List.replicate 72 '\x00')
      (boot (sysfs_files "ondemand\n".data true))).trace
      = [(3, some SAMPLING_RATE_ONDEMAND, "50000".data)] ∧
    cstr (get_scaling_governor (boot (sysfs_files "interactive\n".data true)) [] 80).2.1
      = "interactive".data ∧
    file_writes (cm_power_init ("ondemand".data ++ List.replicate 72 '\x00')
      (boot (sysfs_files "interactive\n".data true))).trace
      = [(3, some SAMPLING_RATE_ONDEMAND, "50000".data)] := by
  refine ⟨?_, by decide, by decide, by decide, by decide, by decide, by decide⟩
  intro g k
  unfold cm_power_init
  by_cases hg : strncmp g "ondemand".data 8 = 0
  · right
    rw [if_pos hg]
    exact (sysfs_write_effect k _ _).2.2.2
  · left
    rw [if_neg hg]
    rfl

/-- C9, as stated, fails: a successful open does not reset `boostpulse_warned`.
The first hint finds the governor `ondemand` but no boost file, logs the open
error and sets the flag; the boost file then appears; the second hint opens it
as handle 3, and the flag is still 1. Nor is the first open failure after a
successful open always logged: after an open that succeeds and a write that
fails, a hint that cannot read the governor sets the flag, and the failure to
open the boost path in the hint after that leaves no "Error opening boostpulse"
line. -/
theorem boostpulse_open_success_keeps_warned :
    (run (HAL_MODULE_INFO_SYM, boot (sysfs_files_no_ondemand "ondemand\n".data))
      [Action.hint power_hint_t.POWER_HINT_INTERACTION 0 []]).1
      = { boostpulse_fd := -1, boostpulse_warned := 1 } ∧
    (run (HAL_MODULE_INFO_SYM, boot (sysfs_files_no_ondemand "ondemand\n".data))
      [Action.hint power_hint_t.POWER_HINT_INTERACTION 0 [],
       Action.env (sysfs_files "ondemand\n".data true),
       Action.hint power_hint_t.POWER_HINT_INTERACTION 0 []]).1
      = { boostpulse_fd := 3, boostpulse_warned := 1 } ∧
    Event.ev_open BOOSTPULSE_ONDEMAND OFlag.O_WRONLY 3 ∈
      (run (HAL_MODULE_INFO_SYM, boot (sysfs_files_no_ondemand "ondemand\n".data))
        [Action.hint power_hint_t.POWER_HINT_INTERACTION 0 [],
         Action.env (sysfs_files "ondemand\n".data true),
         Action.hint power_hint_t.POWER_HINT_INTERACTION 0 []]).2.trace ∧
    (run (HAL_MODULE_INFO_SYM, boot (sysfs_files "ondemand\n".data false))
      [Action.hint power_hint_t.POWER_HINT_INTERACTION 0 []]).1
      = { boostpulse_fd := -1, boostpulse_warned := 0 } ∧
    Event.ev_open BOOSTPULSE_ONDEMAND OFlag.O_WRONLY 3 ∈
      (run (HAL_MODULE_INFO_SYM, boot (sysfs_files "ondemand\n".data false))
        [Action.hint power_hint_t.POWER_HINT_INTERACTION 0 []]).2.trace ∧
    (run (HAL_MODULE_INFO_SYM, boot (sysfs_files "ondemand\n".data false))
      [Action.hint power_hint_t.POWER_HINT_INTERACTION 0 [],
       Action.env [],
       Action.hint power_hint_t.POWER_HINT_INTERACTION 0 [],
       Action.env (sysfs_files_no_ondemand "ondemand\n".data),
       Action.hint power_hint_t.POWER_HINT_INTERACTION 0 []]).2.trace.head?
      = some (Event.ev_open BOOSTPULSE_ONDEMAND OFlag.O_WRONLY (-1)) ∧
    open_errors (run (HAL_MODULE_INFO_SYM, boot (sysfs_files "ondemand\n".data false))
      [Action.hint power_hint_t.POWER_HINT_INTERACTION 0 [],
       Action.env [],
       Action.hint power_hint_t.POWER_HINT_INTERACTION 0 [],
       Action.env (sysfs_files_no_ondemand "ondemand\n".data),
       Action.hint power_hint_t.POWER_HINT_INTERACTION 0 []]).2.trace = 0 := by
  decide

/-- C9, amended. With the handle absent: if the governor is read,
`boostpulse_open` logs "Error opening boostpulse" exactly when no handle results
and `boostpulse_warned` is clear, and sets the flag, so that later failures are
not logged, and a successful open leaves the flag as it was; if the governor
cannot be read, the flag is set without that line. `boostpulse_open` never
clears a set flag. Any action that takes the handle from present to absent
leaves `boostpulse_warned = 0`, and a `boostpulse_open` on that module state in
which the governor is read and no handle results logs the line again. -/
theorem boostpulse_warned_cycle :
    (∀ (cm : cm_power_module) (g : List Char) (k : Kernel),
      cm.boostpulse_fd < 0 → (get_scaling_governor k g 80).1 = 0 →
      ((boostpulse_open cm g k).1 < 0 → cm.boostpulse_warned = 0 →
        open_errors (boostpulse_open cm g k).2.2.trace = open_errors k.trace + 1 ∧
        (boostpulse_open cm g k).2.1.boostpulse_warned = 1) ∧
      ((boostpulse_open cm g k).1 < 0 → cm.boostpulse_warned ≠ 0 →
        open_errors (boostpulse_open cm g k).2.2.trace = open_errors k.trace ∧
        (boostpulse_open cm g k).2.1.boostpulse_warned = cm.boostpulse_warned) ∧
      (0 ≤ (boostpulse_open cm g k).1 →
        open_errors (boostpulse_open cm g k).2.2.trace = open_errors k.trace ∧
        (boostpulse_open cm g k).2.1.boostpulse_warned = cm.boostpulse_warned)) ∧
    (∀ (cm : cm_power_module) (g : List Char) (k : Kernel),
      cm.boostpulse_fd < 0 → (get_scaling_governor k g 80).1 ≠ 0 →
      (boostpulse_open cm g k).1 = cm.boostpulse_fd ∧
      open_errors (boostpulse_open cm g k).2.2.trace = open_errors k.trace ∧
      (boostpulse_open cm g k).2.1.boostpulse_warned = 1) ∧
    (∀ (cm : cm_power_module) (g : List Char) (k : Kernel),
      cm.boostpulse_warned ≠ 0 → (boostpulse_open cm g k).2.1.boostpulse_warned ≠ 0) ∧
    (∀ (s : cm_power_module × Kernel) (a : Action),
      0 ≤ s.1.boostpulse_fd → (step s a).1.boostpulse_fd < 0 →
      (step s a).1.boostpulse_warned = 0 ∧
      ∀ (g : List Char) (k : Kernel), (get_scaling_governor k g 80).1 = 0 →
        (boostpulse_open (step s a).1 g k).1 < 0 →
        open_errors (boostpulse_open (step s a).1 g k).2.2.trace
          = open_errors k.trace + 1) := by
  have hfail : ∀ (cm : cm_power_module) (g : List Char) (k : Kernel),
      cm.boostpulse_fd < 0 → (get_scaling_governor k g 80).1 ≠ 0 →
      (boostpulse_open cm g k).1 = cm.boostpulse_fd ∧
      open_errors (boostpulse_open cm g k).2.2.trace = open_errors k.trace ∧
      (boostpulse_open cm g k).2.1.boostpulse_warned = 1 := by
    intro cm g k hfd hread
    rcases (get_scaling_governor_spec k g 80).2.2.2.2.2.2 with hr | hr
    · exact boostpulse_open_read_failure cm g k hfd hr
    · exact absurd hr.1 hread
  refine ⟨?_, hfail, ?_, ?_⟩
  · intro cm g k hfd hread
    obtain ⟨h1, h2, h3⟩ := boostpulse_open_logging cm g k hfd hread
    refine ⟨fun ha hb => ?_, h2, h3⟩
    obtain ⟨e1, -, e3⟩ := h1 ha hb
    exact ⟨e1, e3⟩
  · intro cm g k hw
    by_cases hfd : cm.boostpulse_fd < 0
    · by_cases hread : (get_scaling_governor k g 80).1 = 0
      · obtain ⟨-, h2, h3⟩ := boostpulse_open_logging cm g k hfd hread
        by_cases hb : (boostpulse_open cm g k).1 < 0
        · rw [(h2 hb hw).2]
          exact hw
        · rw [(h3 (not_lt.mp hb)).2]
          exact hw
      · rw [(hfail cm g k hfd hread).2.2]
        decide
    · have hc : boostpulse_open cm g k = (cm.boostpulse_fd, cm, k) := by
        simp [boostpulse_open, hfd]
      rw [hc]
      exact hw
  · intro s a h0 h1
    have hs := step_present_to_absent s a h0 h1
    rw [hs]
    refine ⟨rfl, ?_⟩
    intro g k hread hfail2
    have hneg : (cm_power_module.mk (-1) 0).boostpulse_fd < 0 := by decide
    exact ((boostpulse_open_logging _ g k hneg hread).1 hfail2 rfl).1

/-- C9, amended, evaluated: a first failed open logs once and sets the flag; a
second failed open logs nothing more; an open on a tree without governor file
sets the flag and logs no open error; and the hint whose write fails on handle 3
leaves the flag clear. -/
theorem boostpulse_warned_cycle_witness :
    open_errors (boostpulse_open HAL_MODULE_INFO_SYM []
      (boot (sysfs_files_no_ondemand "ondemand\n".data))).2.2.trace = 0 + 1 ∧
    open_errors (boostpulse_open { boostpulse_fd := -1, boostpulse_warned := 1 } []
      (boot (sysfs_files_no_ondemand "ondemand\n".data))).2.2.trace = 0 ∧
    (open_errors (boostpulse_open HAL_MODULE_INFO_SYM [] (boot [])).2.2.trace = 0 ∧
      (boostpulse_open HAL_MODULE_INFO_SYM [] (boot [])).2.1.boostpulse_warned = 1) ∧
    (step ({ boostpulse_fd := 3, boostpulse_warned := 1 },
        { files := sysfs_files_no_ondemand "interactive\n".data,
          fds := [(3, BOOSTPULSE_ONDEMAND, OFlag.O_WRONLY)], trace := [] })
      (Action.hint power_hint_t.POWER_HINT_INTERACTION 0 [])).1.boostpulse_warned = 0 := by
  refine ⟨?_, ?_, ?_, ?_⟩
  · exact ((boostpulse_warned_cycle.1 HAL_MODULE_INFO_SYM []
      (boot (sysfs_files_no_ondemand "ondemand\n".data)) (by decide) (by decide)).1
      (by decide) (by decide)).1
  · exact ((boostpulse_warned_cycle.1 { boostpulse_fd := -1, boostpulse_warned := 1 } []
      (boot (sysfs_files_no_ondemand "ondemand\n".data)) (by decide) (by decide)).2.1
      (by decide) (by decide)).1
  · exact (boostpulse_warned_cycle.2.1 HAL_MODULE_INFO_SYM [] (boot [])
      (by decide) (by decide)).2
  · exact (boostpulse_warned_cycle.2.2.2 _ _ (by decide) (by decide)).1

/-- C10, as stated with the governor file free to change, fails: after a hint has
opened the ondemand boost path as handle 3, the governor changes to
`interactive` (and the ondemand directory goes away); the handle is still 3,
still open write-only on the ondemand boost path, and so not on the path of the
governor. -/
theorem boost_handle_stale_after_governor_change :
    (run (HAL_MODULE_INFO_SYM, boot (sysfs_files "ondemand\n".data true))
      [Action.hint power_hint_t.POWER_HINT_INTERACTION 0 [],
       Action.env (sysfs_files_no_ondemand "interactive\n".data)]).1.boostpulse_fd = 3 ∧
    (run (HAL_MODULE_INFO_SYM, boot (sysfs_files "ondemand\n".data true))
      [Action.hint power_hint_t.POWER_HINT_INTERACTION 0 [],
       Action.env (sysfs_files_no_ondemand "interactive\n".data)]).2.fds.lookup 3
      = some (BOOSTPULSE_ONDEMAND, OFlag.O_WRONLY) ∧
    cstr (get_scaling_governor
      (run (HAL_MODULE_INFO_SYM, boot (sysfs_files "ondemand\n".data true))
        [Action.hint power_hint_t.POWER_HINT_INTERACTION 0 [],
         Action.env (sysfs_files_no_ondemand "interactive\n".data)]).2 [] 80).2.1
      = "interactive".data ∧
    handle_matches_now
      (run (HAL_MODULE_INFO_SYM, boot (sysfs_files "ondemand\n".data true))
        [Action.hint power_hint_t.POWER_HINT_INTERACTION 0 [],
         Action.env (sysfs_files_no_ondemand "interactive\n".data)]) = false := by
  decide

/-- C10, amended. In every state reached from the initial module
(`boostpulse_fd = -1`, `boostpulse_warned = 0`) on any kernel by any sequence of
`cm_power_init`, `cm_power_set_interactive` and `cm_power_hint` calls, with the
files free to change in between, the cached handle is -1 or an open write-only
descriptor on one of the two boost paths; a handle newly yielded by
`boostpulse_open` is on the path chosen by the start of the governor name read
in that call (`ondemand`, else `interactive`); and a write failure on the handle
leaves it closed and the module at `boostpulse_fd = -1`. -/
theorem boost_handle_invariant :
    (∀ (k0 : Kernel) (as : List Action),
      handle_ok (run (HAL_MODULE_INFO_SYM, k0) as) = true) ∧
    (∀ (cm : cm_power_module) (g : List Char) (k : Kernel),
      cm.boostpulse_fd < 0 → 0 ≤ (boostpulse_open cm g k).1 →
      (get_scaling_governor k g 80).1 = 0 ∧
      (("ondemand".data <+: cstr (get_scaling_governor k g 80).2.1 ∧
        (boostpulse_open cm g k).2.2.fds.lookup (boostpulse_open cm g k).1
          = some (BOOSTPULSE_ONDEMAND, OFlag.O_WRONLY)) ∨
       (¬ "ondemand".data <+: cstr (get_scaling_governor k g 80).2.1 ∧
        "interactive".data <+: cstr (get_scaling_governor k g 80).2.1 ∧
        (boostpulse_open cm g k).2.2.fds.lookup (boostpulse_open cm g k).1
          = some (BOOSTPULSE_INTERACTIVE, OFlag.O_WRONLY)))) ∧
    (∀ (cm : cm_power_module) (hint : power_hint_t) (data : Nat) (g : List Char)
      (k : Kernel),
      hint = power_hint_t.POWER_HINT_INTERACTION ∨
        hint = power_hint_t.POWER_HINT_CPU_BOOST →
      0 ≤ (boostpulse_open cm g k).1 →
      write_ok (boostpulse_open cm g k).2.2 (boostpulse_open cm g k).1 = false →
      (cm_power_hint cm hint data g k).1.boostpulse_fd = -1 ∧
      (cm_power_hint cm hint data g k).2.fds.lookup (boostpulse_open cm g k).1 = none) := by
  refine ⟨?_, ?_, ?_⟩
  · intro k0 as
    have gen : ∀ (l : List Action) (s : cm_power_module × Kernel),
        handle_ok s = true → handle_ok (run s l) = true := by
      intro l
      induction l with
      | nil => intro s hs; exact hs
      | cons a t ih =>
        intro s hs
        exact ih (step s a) (step_handle_ok s a hs)
    apply gen
    rw [handle_ok_iff]
    left
    rfl
  · intro cm g k hfd hb
    exact (boostpulse_open_frame cm g k).2.2.2.1 hfd hb
  · intro cm hint data g k hk hb hw
    have hcase : cm_power_hint cm hint data g k = boost_case cm data g k := by
      rcases hk with hk | hk <;> rw [hk] <;> rfl
    obtain ⟨h1, -, h3⟩ := boost_case_write_failure cm data g k hb hw
    rw [hcase, h1]
    exact ⟨rfl, h3⟩

/-- C10, amended, evaluated: after a hint on governor `ondemand` the handle is an
open descriptor on the ondemand boost path, selected by the governor read in that
call, and a hint whose write fails leaves the handle at -1 and descriptor 3
closed. -/
theorem boost_handle_invariant_witness :
    handle_ok (run (HAL_MODULE_INFO_SYM, boot (sysfs_files "ondemand\n".data true))
      [Action.init [], Action.hint power_hint_t.POWER_HINT_INTERACTION 0 [],
       Action.set_interactive 0 []]) = true ∧
    (boostpulse_open HAL_MODULE_INFO_SYM [] (boot (sysfs_files "ondemand\n".data true))
      ).2.2.fds.lookup 3 = some (BOOSTPULSE_ONDEMAND, OFlag.O_WRONLY) ∧
    (cm_power_hint HAL_MODULE_INFO_SYM power_hint_t.POWER_HINT_CPU_BOOST 7 []
      (boot (sysfs_files "ondemand\n".data false))).1.boostpulse_fd = -1 := by
  refine ⟨boost_handle_invariant.1 _ _, ?_, ?_⟩
  · have h := boost_handle_invariant.2.1 HAL_MODULE_INFO_SYM []
      (boot (sysfs_files "ondemand\n".data true)) (by decide) (by decide)
    rcases h.2 with hx | hx
    · exact hx.2
    · exact absurd hx.1 (by decide)
  · exact (boost_handle_invariant.2.2 HAL_MODULE_INFO_SYM
      power_hint_t.POWER_HINT_CPU_BOOST 7 [] (boot (sysfs_files "ondemand\n".data false))
      (Or.inr rfl) (by decide) (by decide)).1

end PowerHAL
